import Mathlib

/-!
# SlotSwapper: the swap-request state machine

A shallow embedding of `backend/routes/swap.js`, `backend/routes/events.js`,
`backend/models/SwapRequest.js` and `backend/models/Notification.js`.

Modelling conventions.

* A MongoDB collection is a list of documents in insertion order.  `findOne`
  returns the first document that satisfies the filter, `updateOne` rewrites
  the first document that satisfies the filter, `deleteOne` removes it.
* An `ObjectId` is a natural number; the store carries the next fresh one.
* A `Date` is a natural number; a handler of `swap.js` receives the clock
  value `now` that its `new Date()` calls read.
* Each handler runs to completion on the store (no interleaving), and returns
  the store it leaves behind together with the HTTP response it sends.  A
  JavaScript exception inside the `try` block ends the handler with the
  `500` response and keeps the writes made before it.
* User documents live behind the authentication layer (`routes/auth.js` and
  the User model are not part of the sources); a populated user reference
  always resolves, and the display name of a user is read from a directory
  function.
* `swapRequestSchema` is a strict schema: `save()` validates `status` against
  the `enum` and writes only the declared paths.  A property assigned to a
  document that the schema does not declare lives on the in-memory document
  only.
-/

namespace SlotSwapper

abbrev ObjectId := Nat

abbrev Date := Nat

/-! ## Collections -/

/-- Mongo `findOne`: the first document of the collection matching the filter. -/
def findOne {α : Type} (p : α → Bool) (docs : List α) : Option α :=
  docs.find? p

/-- Mongo `updateOne`: rewrite the first document matching the filter. -/
def updateOne {α : Type} (p : α → Bool) (f : α → α) : List α → List α
  | [] => []
  | d :: ds => if p d then f d :: ds else d :: updateOne p f ds

/-- Mongo `deleteOne`: remove the first document matching the filter. -/
def deleteOne {α : Type} (p : α → Bool) : List α → List α
  | [] => []
  | d :: ds => if p d then ds else d :: deleteOne p ds

/-- Mongo `countDocuments`. -/
def countDocuments {α : Type} (p : α → Bool) (docs : List α) : Nat :=
  (docs.filter p).length

/-! ## Data model -/

/-- Values of `Event.status`. -/
inductive EventStatus where
  | BUSY
  | SWAPPABLE
  | SWAP_PENDING
  deriving DecidableEq, Repr

/-- Values the swap routes write into `Event.lastAction`. -/
inductive LastAction where
  | SWAP_ACCEPTED
  | SWAP_REJECTED
  | SWAP_CANCELLED
  deriving DecidableEq, Repr

/-- Modelled from the spec: `backend/models/Event.js` is not part of the
sources.  The fields are those of the Event record of the data model
(`ownerId` is the path `userId` that the routes read and write), with
`lastUpdated` and `lastAction` absent until a swap route writes them. -/
structure Event where
  _id : ObjectId
  userId : ObjectId
  title : String
  startTime : Date
  endTime : Date
  status : EventStatus
  lastUpdated : Option Date
  lastAction : Option LastAction
  deriving DecidableEq, Repr

/-- Strings assigned to `SwapRequest.status` by the routes. -/
inductive SwapStatus where
  | PENDING
  | ACCEPTED
  | REJECTED
  | CANCELLED
  deriving DecidableEq, Repr

/-- The `enum` of the `status` path in `swapRequestSchema`. -/
def statusEnum : List SwapStatus :=
  [SwapStatus.PENDING, SwapStatus.ACCEPTED, SwapStatus.REJECTED]

/-- A `start`/`end` pair captured on the accept path; the property `end` is
the field `stop` here, `end` being a keyword. -/
structure TimeRange where
  start : Date
  stop : Date
  deriving DecidableEq, Repr

/-- The value assigned to `swapRequest.originalTimes` on the accept path. -/
structure OriginalTimes where
  requester : TimeRange
  requested : TimeRange
  deriving DecidableEq, Repr

/-- A SwapRequest document.  The first block of fields are the paths declared
by `swapRequestSchema` (with the two `timestamps`); the second block are the
properties that the routes assign although the schema does not declare them.
Only schema paths are written to the collection, see `SwapRequest.persist`. -/
structure SwapRequest where
  _id : ObjectId
  requesterSlotId : ObjectId
  requestedSlotId : ObjectId
  requesterUserId : ObjectId
  requestedUserId : ObjectId
  status : SwapStatus
  createdAt : Date
  updatedAt : Date
  requestMessage : Option String
  responseMessage : Option String
  respondedAt : Option Date
  completedAt : Option Date
  cancelledAt : Option Date
  originalTimes : Option OriginalTimes
  deriving DecidableEq, Repr

/-- The `enum` of the `type` path in `notificationSchema`. -/
inductive NotificationType where
  | SWAP_REQUEST
  | SWAP_ACCEPTED
  | SWAP_REJECTED
  | SWAP_CANCELLED
  | SWAP_COMPLETED
  | SYSTEM
  deriving DecidableEq, Repr

/-- A Notification document (`relatedModel` keeps its default). -/
structure Notification where
  _id : ObjectId
  userId : ObjectId
  type : NotificationType
  title : String
  message : String
  relatedId : ObjectId
  actionRequired : Bool
  read : Bool
  createdAt : Date
  deriving DecidableEq, Repr

/-- The authenticated caller, `req.user`. -/
structure User where
  _id : ObjectId
  name : String
  deriving DecidableEq, Repr

/-- The three collections the routes touch, and the next fresh `ObjectId`. -/
structure Store where
  events : List Event
  swapRequests : List SwapRequest
  notifications : List Notification
  nextId : ObjectId
  deriving DecidableEq, Repr

/-- The store before any request has been served. -/
def Store.empty : Store :=
  { events := [], swapRequests := [], notifications := [], nextId := 0 }

/-- The responses of the routes.  Each `400` response is named after the error
kind it stands for; the comment gives the status code and message sent. -/
inductive Response where
  /-- 201 from a create route. -/
  | created
  /-- 200 from the other routes. -/
  | ok
  /-- 400 Invalid slots or slots not available for swap. -/
  | invalidSlots
  /-- 400 Your slot is not marked as swappable. -/
  | invalidState
  /-- 400 Cannot swap with your own slot. -/
  | selfSwapNotAllowed
  /-- 400 Swap request already exists for these slots. -/
  | duplicateRequest
  /-- 404 Swap request not found, Event not found. -/
  | notFound
  /-- 403 Not authorized to respond to, to cancel, this request. -/
  | forbidden
  /-- 400 Swap request already processed, Cannot cancel a processed request. -/
  | alreadyProcessed
  /-- 500 Server error, sent from the catch block. -/
  | serverError
  deriving DecidableEq, Repr

/-- The outcome of one handler: the store left behind and the response sent. -/
structure Result where
  store : Store
  response : Response
  deriving DecidableEq, Repr

/-- A handler succeeded when it answered 200 or 201. -/
def Response.isSuccess : Response → Bool
  | Response.created => true
  | Response.ok => true
  | _ => false

/-! ## Model layer -/

/-- `Event.findById`. -/
def Event.findById (events : List Event) (id : ObjectId) : Option Event :=
  findOne (fun e => e._id == id) events

/-- `Event.findByIdAndUpdate`: apply the update to the Event with this id. -/
def Event.findByIdAndUpdate (events : List Event) (id : ObjectId)
    (update : Event → Event) : List Event :=
  updateOne (fun e => e._id == id) update events

/-- `SwapRequest.findById`. -/
def SwapRequest.findById (requests : List SwapRequest) (id : ObjectId) :
    Option SwapRequest :=
  findOne (fun r => r._id == id) requests

/-- Schema validation run by `save()`: `status` must be one of the enum
values (the four required references are always present in this model). -/
def SwapRequest.validate (doc : SwapRequest) : Bool :=
  statusEnum.contains doc.status

/-- The document written by `save()`: the schema paths of the in-memory
document `doc` are written over the stored document, `updatedAt` is stamped,
and every path the schema does not declare keeps its stored value. -/
def SwapRequest.persist (now : Date) (doc stored : SwapRequest) : SwapRequest :=
  { stored with
    requesterSlotId := doc.requesterSlotId
    requestedSlotId := doc.requestedSlotId
    requesterUserId := doc.requesterUserId
    requestedUserId := doc.requestedUserId
    status := doc.status
    createdAt := doc.createdAt
    updatedAt := now }

/-- The document inserted by `save()` on a new SwapRequest: the schema paths
only. -/
def SwapRequest.strict (now : Date) (doc : SwapRequest) : SwapRequest :=
  { _id := doc._id
    requesterSlotId := doc.requesterSlotId
    requestedSlotId := doc.requestedSlotId
    requesterUserId := doc.requesterUserId
    requestedUserId := doc.requestedUserId
    status := doc.status
    createdAt := doc.createdAt
    updatedAt := now
    requestMessage := none
    responseMessage := none
    respondedAt := none
    completedAt := none
    cancelledAt := none
    originalTimes := none }

/-- `save()` on a SwapRequest built with `new`: `none` is a thrown
ValidationError. -/
def SwapRequest.insert (now : Date) (doc : SwapRequest)
    (requests : List SwapRequest) : Option (List SwapRequest) :=
  if doc.validate then some (requests ++ [SwapRequest.strict now doc]) else none

/-- `save()` on a SwapRequest loaded from the collection: `none` is a thrown
ValidationError. -/
def SwapRequest.save (now : Date) (doc : SwapRequest)
    (requests : List SwapRequest) : Option (List SwapRequest) :=
  if doc.validate then
    some (updateOne (fun r => r._id == doc._id) (SwapRequest.persist now doc) requests)
  else none

/-- The helper `createNotification` of `swap.js`.  `title` and `message` are
required paths; a ValidationError is caught and logged, and nothing is
stored. -/
def createNotification (s : Store) (userId : ObjectId) (type : NotificationType)
    (title message : String) (relatedId : ObjectId) (actionRequired : Bool)
    (now : Date) : Store :=
  if title = "" ∨ message = "" then s
  else
    { s with
      notifications := s.notifications ++
        [{ _id := s.nextId
           userId := userId
           type := type
           title := title
           message := message
           relatedId := relatedId
           actionRequired := actionRequired
           read := false
           createdAt := now }]
      nextId := s.nextId + 1 }

/-! ## `routes/swap.js` -/

/-- The filter of the duplicate check of `POST /swap-request`. -/
def existingRequestFilter (mySlotId theirSlotId : ObjectId) (r : SwapRequest) : Bool :=
  ((r.requesterSlotId == mySlotId && r.requestedSlotId == theirSlotId) ||
    (r.requesterSlotId == theirSlotId && r.requestedSlotId == mySlotId)) &&
    r.status == SwapStatus.PENDING

/-- The handler of `POST /swap-request`. -/
def createSwapRequest (s : Store) (user : User) (mySlotId theirSlotId : ObjectId)
    (message : Option String) (now : Date) : Result :=
  let mySlot := findOne (fun e => e._id == mySlotId && e.userId == user._id) s.events
  let theirSlot :=
    findOne (fun e => e._id == theirSlotId && e.status == EventStatus.SWAPPABLE) s.events
  match mySlot, theirSlot with
  | some mySlot, some theirSlot =>
    if mySlot.status ≠ EventStatus.SWAPPABLE then ⟨s, Response.invalidState⟩
    else if theirSlot.userId = user._id then ⟨s, Response.selfSwapNotAllowed⟩
    else
      match findOne (existingRequestFilter mySlotId theirSlotId) s.swapRequests with
      | some _ => ⟨s, Response.duplicateRequest⟩
      | none =>
        let swapRequest : SwapRequest :=
          { _id := s.nextId
            requesterSlotId := mySlotId
            requestedSlotId := theirSlotId
            requesterUserId := user._id
            requestedUserId := theirSlot.userId
            status := SwapStatus.PENDING
            createdAt := now
            updatedAt := now
            requestMessage := message
            responseMessage := none
            respondedAt := none
            completedAt := none
            cancelledAt := none
            originalTimes := none }
        match SwapRequest.insert now swapRequest s.swapRequests with
        | none => ⟨s, Response.serverError⟩
        | some requests =>
          let s1 : Store := { s with swapRequests := requests, nextId := s.nextId + 1 }
          let s2 : Store :=
            { s1 with
              events := Event.findByIdAndUpdate s1.events mySlotId
                (fun e => { e with status := EventStatus.SWAP_PENDING, lastUpdated := some now }) }
          let s3 : Store :=
            { s2 with
              events := Event.findByIdAndUpdate s2.events theirSlotId
                (fun e => { e with status := EventStatus.SWAP_PENDING, lastUpdated := some now }) }
          let s4 := createNotification s3 theirSlot.userId NotificationType.SWAP_REQUEST
            "New Swap Request!" (user.name ++ " wants to swap time slots with you.")
            swapRequest._id true now
          ⟨s4, Response.created⟩
  | _, _ => ⟨s, Response.invalidSlots⟩

/-- The placeholder of the reject path, `responseMessage || text`. -/
def orNoReason (responseMessage : Option String) : String :=
  match responseMessage with
  | some m => if m = "" then "No reason provided" else m
  | none => "No reason provided"

/-- The handler of `POST /swap-response/:requestId`.  `userName` reads the
`name` of a populated user reference. -/
def respondToSwapRequest (userName : ObjectId → String) (s : Store) (user : User)
    (requestId : ObjectId) (accept : Bool) (responseMessage : Option String)
    (now : Date) : Result :=
  match SwapRequest.findById s.swapRequests requestId with
  | none => ⟨s, Response.notFound⟩
  | some swapRequest =>
    if swapRequest.requestedUserId ≠ user._id then ⟨s, Response.forbidden⟩
    else if swapRequest.status ≠ SwapStatus.PENDING then ⟨s, Response.alreadyProcessed⟩
    else
      let requesterSlot := Event.findById s.events swapRequest.requesterSlotId
      let requestedSlot := Event.findById s.events swapRequest.requestedSlotId
      if accept then
        match requesterSlot, requestedSlot with
        | some requesterSlot, some requestedSlot =>
          let originalRequesterTime : TimeRange :=
            { start := requesterSlot.startTime, stop := requesterSlot.endTime }
          let originalRequestedTime : TimeRange :=
            { start := requestedSlot.startTime, stop := requestedSlot.endTime }
          let s1 : Store :=
            { s with
              events := Event.findByIdAndUpdate s.events requesterSlot._id
                (fun e => { e with
                  startTime := originalRequestedTime.start
                  endTime := originalRequestedTime.stop
                  status := EventStatus.BUSY
                  lastUpdated := some now
                  lastAction := some LastAction.SWAP_ACCEPTED }) }
          let s2 : Store :=
            { s1 with
              events := Event.findByIdAndUpdate s1.events requestedSlot._id
                (fun e => { e with
                  startTime := originalRequesterTime.start
                  endTime := originalRequesterTime.stop
                  status := EventStatus.BUSY
                  lastUpdated := some now
                  lastAction := some LastAction.SWAP_ACCEPTED }) }
          let doc : SwapRequest :=
            { swapRequest with
              status := SwapStatus.ACCEPTED
              respondedAt := some now
              responseMessage := responseMessage
              completedAt := some now
              originalTimes := some
                { requester := originalRequesterTime, requested := originalRequestedTime } }
          match SwapRequest.save now doc s2.swapRequests with
          | none => ⟨s2, Response.serverError⟩
          | some requests =>
            let s3 : Store := { s2 with swapRequests := requests }
            let s4 := createNotification s3 swapRequest.requesterUserId
              NotificationType.SWAP_ACCEPTED "Swap Request Accepted! "
              (user.name ++ " accepted your swap request. Your events have been rescheduled.")
              swapRequest._id false now
            let s5 := createNotification s4 user._id
              NotificationType.SWAP_COMPLETED "Swap Completed! "
              ("You accepted " ++ userName swapRequest.requesterUserId ++ "'s swap request.")
              swapRequest._id false now
            ⟨s5, Response.ok⟩
        | _, _ => ⟨s, Response.serverError⟩
      else
        match requesterSlot with
        | none => ⟨s, Response.serverError⟩
        | some requesterSlot =>
          let s1 : Store :=
            { s with
              events := Event.findByIdAndUpdate s.events requesterSlot._id
                (fun e => { e with
                  status := EventStatus.SWAPPABLE
                  lastUpdated := some now
                  lastAction := some LastAction.SWAP_REJECTED }) }
          match requestedSlot with
          | none => ⟨s1, Response.serverError⟩
          | some requestedSlot =>
            let s2 : Store :=
              { s1 with
                events := Event.findByIdAndUpdate s1.events requestedSlot._id
                  (fun e => { e with
                    status := EventStatus.SWAPPABLE
                    lastUpdated := some now
                    lastAction := some LastAction.SWAP_REJECTED }) }
            let doc : SwapRequest :=
              { swapRequest with
                status := SwapStatus.REJECTED
                respondedAt := some now
                responseMessage := some (orNoReason responseMessage)
                completedAt := some now }
            match SwapRequest.save now doc s2.swapRequests with
            | none => ⟨s2, Response.serverError⟩
            | some requests =>
              let s3 : Store := { s2 with swapRequests := requests }
              let s4 := createNotification s3 swapRequest.requesterUserId
                NotificationType.SWAP_REJECTED "Swap Request Declined"
                (user.name ++ " declined your swap request.")
                swapRequest._id false now
              ⟨s4, Response.ok⟩

/-- The handler of `DELETE /swap-request/:requestId`. -/
def cancelSwapRequest (s : Store) (user : User) (requestId : ObjectId)
    (now : Date) : Result :=
  match SwapRequest.findById s.swapRequests requestId with
  | none => ⟨s, Response.notFound⟩
  | some swapRequest =>
    if swapRequest.requesterUserId ≠ user._id then ⟨s, Response.forbidden⟩
    else if swapRequest.status ≠ SwapStatus.PENDING then ⟨s, Response.alreadyProcessed⟩
    else
      match Event.findById s.events swapRequest.requesterSlotId with
      | none => ⟨s, Response.serverError⟩
      | some requesterSlot =>
        let s1 : Store :=
          { s with
            events := Event.findByIdAndUpdate s.events requesterSlot._id
              (fun e => { e with
                status := EventStatus.SWAPPABLE
                lastUpdated := some now
                lastAction := some LastAction.SWAP_CANCELLED }) }
        match Event.findById s.events swapRequest.requestedSlotId with
        | none => ⟨s1, Response.serverError⟩
        | some requestedSlot =>
          let s2 : Store :=
            { s1 with
              events := Event.findByIdAndUpdate s1.events requestedSlot._id
                (fun e => { e with
                  status := EventStatus.SWAPPABLE
                  lastUpdated := some now
                  lastAction := some LastAction.SWAP_CANCELLED }) }
          let doc : SwapRequest :=
            { swapRequest with
              status := SwapStatus.CANCELLED
              cancelledAt := some now }
          match SwapRequest.save now doc s2.swapRequests with
          | none => ⟨s2, Response.serverError⟩
          | some requests =>
            let s3 : Store := { s2 with swapRequests := requests }
            let s4 := createNotification s3 swapRequest.requestedUserId
              NotificationType.SWAP_CANCELLED "Swap Request Cancelled"
              (user.name ++ " cancelled their swap request.")
              swapRequest._id false now
            ⟨s4, Response.ok⟩

/-! ## `routes/events.js` -/

/-- The handler of `POST /api/events`; `status || BUSY` is the default. -/
def createEvent (s : Store) (user : User) (title : String) (startTime endTime : Date)
    (status : Option EventStatus) : Result :=
  let event : Event :=
    { _id := s.nextId
      userId := user._id
      title := title
      startTime := startTime
      endTime := endTime
      status := status.getD EventStatus.BUSY
      lastUpdated := none
      lastAction := none }
  ⟨{ s with events := s.events ++ [event], nextId := s.nextId + 1 }, Response.created⟩

/-- The handler of `PUT /api/events/:id`.  A body field is written when it is
truthy: a present, non-empty `title`, a present date other than the number 0,
any present status. -/
def updateEvent (s : Store) (user : User) (id : ObjectId) (title : Option String)
    (startTime endTime : Option Date) (status : Option EventStatus) : Result :=
  match findOne (fun e => e._id == id && e.userId == user._id) s.events with
  | none => ⟨s, Response.notFound⟩
  | some event =>
    let event1 : Event :=
      match title with
      | some t => if t = "" then event else { event with title := t }
      | none => event
    let event2 : Event :=
      match startTime with
      | some t => if t = 0 then event1 else { event1 with startTime := t }
      | none => event1
    let event3 : Event :=
      match endTime with
      | some t => if t = 0 then event2 else { event2 with endTime := t }
      | none => event2
    let event4 : Event :=
      match status with
      | some st => { event3 with status := st }
      | none => event3
    ⟨{ s with
       events := updateOne (fun e => e._id == event4._id)
         (fun stored => { stored with
           title := event4.title
           startTime := event4.startTime
           endTime := event4.endTime
           status := event4.status }) s.events },
     Response.ok⟩

/-- The handler of `DELETE /api/events/:id`. -/
def deleteEvent (s : Store) (user : User) (id : ObjectId) : Result :=
  match findOne (fun e => e._id == id && e.userId == user._id) s.events with
  | none => ⟨s, Response.notFound⟩
  | some _ =>
    ⟨{ s with events := deleteOne (fun e => e._id == id && e.userId == user._id) s.events },
     Response.ok⟩

/-! ## `routes/swap.js`: the history query -/

/-- The `status` query parameter of `GET /history` when it is present. -/
inductive StatusFilter where
  | all
  | status (value : SwapStatus)
  deriving DecidableEq, Repr

/-- The filter object `query` of `GET /history`: the `$or` over the two
parties of a SwapRequest, and the `status` path when it has been set. -/
structure HistoryQuery where
  userId : ObjectId
  status : Option SwapStatus
  deriving DecidableEq, Repr

/-- A SwapRequest matches the filter object. -/
def HistoryQuery.matches (q : HistoryQuery) (r : SwapRequest) : Bool :=
  (r.requesterUserId == q.userId || r.requestedUserId == q.userId) &&
    (match q.status with
     | none => true
     | some st => r.status == st)

/-- The filter object built from the caller and the `status` parameter:
`query.status` is set when the parameter is present and is not `all`. -/
def historyQuery (user : User) (status : Option StatusFilter) : HistoryQuery :=
  match status with
  | some (StatusFilter.status st) => { userId := user._id, status := some st }
  | _ => { userId := user._id, status := none }

/-- Insert a SwapRequest into a list that is sorted by `createdAt`, newest
first, after the documents that are as new. -/
def insertByCreatedAt (r : SwapRequest) : List SwapRequest → List SwapRequest
  | [] => [r]
  | x :: xs => if x.createdAt < r.createdAt then r :: x :: xs else x :: insertByCreatedAt r xs

/-- `sort({ createdAt: -1 })`; documents with equal `createdAt` keep their
collection order. -/
def sortByCreatedAtDesc (docs : List SwapRequest) : List SwapRequest :=
  docs.foldl (fun sorted r => insertByCreatedAt r sorted) []

/-- The `summary` object of the history response. -/
structure HistorySummary where
  pending : Nat
  accepted : Nat
  rejected : Nat
  deriving DecidableEq, Repr

/-- The `pagination` object of the history response; `pages` is
`Math.ceil(total / limit)`, absent when `limit` is zero (the quotient is not a
finite number). -/
structure Pagination where
  current : Int
  pages : Option Int
  total : Nat
  deriving DecidableEq, Repr

/-- The body of the 200 response of `GET /history`. -/
structure HistoryResponse where
  swapRequests : List SwapRequest
  pagination : Pagination
  summary : HistorySummary
  deriving DecidableEq, Repr

/-- The handler of `GET /history`; `limit` and `page` default to 10 and 1.
`none` is the 500 response: the database rejects a negative `skip`, and the
`find` is awaited before anything else is computed.  A `limit` of zero is no
limit, a negative `limit` is sent as its absolute value. -/
def listSwapHistory (s : Store) (user : User) (status : Option StatusFilter)
    (limit page : Option Int) : Option HistoryResponse :=
  let limit := limit.getD 10
  let page := page.getD 1
  let query := historyQuery user status
  let skip := (page - 1) * limit
  if skip < 0 then none
  else
    let found := sortByCreatedAtDesc (s.swapRequests.filter query.matches)
    let skipped := found.drop skip.toNat
    let swapRequests := if limit = 0 then skipped else skipped.take limit.natAbs
    let total := countDocuments query.matches s.swapRequests
    some
      { swapRequests := swapRequests
        pagination :=
          { current := page
            pages := if limit = 0 then none else some (-(Int.fdiv (-(total : Int)) limit))
            total := total }
        summary :=
          { pending := countDocuments
              (HistoryQuery.matches { query with status := some SwapStatus.PENDING })
              s.swapRequests
            accepted := countDocuments
              (HistoryQuery.matches { query with status := some SwapStatus.ACCEPTED })
              s.swapRequests
            rejected := countDocuments
              (HistoryQuery.matches { query with status := some SwapStatus.REJECTED })
              s.swapRequests } }

/-- The number of SwapRequests with a given status in which the user is
`requesterUserId` or `requestedUserId`, in the words of the specification. -/
def partyCount (s : Store) (userId : ObjectId) (st : SwapStatus) : Nat :=
  (s.swapRequests.filter (fun r =>
    decide ((r.requesterUserId = userId ∨ r.requestedUserId = userId) ∧ r.status = st))).length

/-- The end-to-end run of the specification: the requester asks for the swap of
`mySlotId` with `theirSlotId`, and the responder accepts the request that was
created (its id is the fresh id the create route drew). -/
def requestThenAccept (userName : ObjectId → String) (s : Store) (requester responder : User)
    (mySlotId theirSlotId : ObjectId) (message responseMessage : Option String)
    (now1 now2 : Date) : Result :=
  respondToSwapRequest userName
    (createSwapRequest s requester mySlotId theirSlotId message now1).store
    responder s.nextId true responseMessage now2

/-- What a test reads from a Notification: recipient and type. -/
def Notification.view (n : Notification) : ObjectId × NotificationType :=
  (n.userId, n.type)

/-! ## Closed forms of the slot updates -/

/-- The update applied to a slot on the accept path: it takes the times of
the other slot. -/
def acceptUpdate (now : Date) (other : Event) (e : Event) : Event :=
  { e with
    startTime := other.startTime
    endTime := other.endTime
    status := EventStatus.BUSY
    lastUpdated := some now
    lastAction := some LastAction.SWAP_ACCEPTED }

/-- The update applied to both slots on the reject path. -/
def rejectUpdate (now : Date) (e : Event) : Event :=
  { e with
    status := EventStatus.SWAPPABLE
    lastUpdated := some now
    lastAction := some LastAction.SWAP_REJECTED }

/-- The update applied to both slots by the cancel route. -/
def cancelUpdate (now : Date) (e : Event) : Event :=
  { e with
    status := EventStatus.SWAPPABLE
    lastUpdated := some now
    lastAction := some LastAction.SWAP_CANCELLED }

/-- The update applied to both slots by a successful request creation. -/
def pendingUpdate (now : Date) (e : Event) : Event :=
  { e with status := EventStatus.SWAP_PENDING, lastUpdated := some now }

/-- The document inserted by a successful request creation. -/
def newSwapRequest (id mySlotId theirSlotId requesterId requestedId : ObjectId)
    (now : Date) : SwapRequest :=
  { _id := id
    requesterSlotId := mySlotId
    requestedSlotId := theirSlotId
    requesterUserId := requesterId
    requestedUserId := requestedId
    status := SwapStatus.PENDING
    createdAt := now
    updatedAt := now
    requestMessage := none
    responseMessage := none
    respondedAt := none
    completedAt := none
    cancelledAt := none
    originalTimes := none }

/-! ## The preconditions of request creation, in the words of the specification -/

/-- MongoDB keeps `_id` unique within the events collection. -/
def Store.uniqueEventIds (s : Store) : Prop :=
  (s.events.map (fun e => e._id)).Nodup

instance (s : Store) : Decidable s.uniqueEventIds :=
  inferInstanceAs (Decidable (List.Nodup (s.events.map (fun e : Event => e._id))))

/-- Precondition 1: `mySlotId` exists and its owner is `requesterId`. -/
def mySlotOwned (s : Store) (requesterId mySlotId : ObjectId) : Bool :=
  s.events.any (fun e => e._id == mySlotId && e.userId == requesterId)

/-- Precondition 2: `theirSlotId` exists and has status SWAPPABLE. -/
def theirSlotSwappable (s : Store) (theirSlotId : ObjectId) : Bool :=
  s.events.any (fun e => e._id == theirSlotId && e.status == EventStatus.SWAPPABLE)

/-- Precondition 3: the status of `mySlotId` is SWAPPABLE. -/
def mySlotSwappable (s : Store) (mySlotId : ObjectId) : Bool :=
  s.events.any (fun e => e._id == mySlotId && e.status == EventStatus.SWAPPABLE)

/-- Precondition 4: the two slots' owners differ. -/
def ownersDiffer (s : Store) (mySlotId theirSlotId : ObjectId) : Bool :=
  s.events.all (fun a => s.events.all (fun b =>
    !(a._id == mySlotId && b._id == theirSlotId) || a.userId != b.userId))

/-- Precondition 5: no SwapRequest with status PENDING references the
unordered pair of slots, in either direction. -/
def noPendingOnPair (s : Store) (mySlotId theirSlotId : ObjectId) : Bool :=
  s.swapRequests.all (fun r =>
    !(r.status == SwapStatus.PENDING &&
      ((r.requesterSlotId == mySlotId && r.requestedSlotId == theirSlotId) ||
       (r.requesterSlotId == theirSlotId && r.requestedSlotId == mySlotId))))

/-- The response the specification prescribes for `createSwapRequest`: the
error of the lowest-numbered failing precondition, 201 when none fails. -/
def expectedCreateResponse (s : Store) (requesterId mySlotId theirSlotId : ObjectId) :
    Response :=
  if mySlotOwned s requesterId mySlotId = false then Response.invalidSlots
  else if theirSlotSwappable s theirSlotId = false then Response.invalidSlots
  else if mySlotSwappable s mySlotId = false then Response.invalidState
  else if ownersDiffer s mySlotId theirSlotId = false then Response.selfSwapNotAllowed
  else if noPendingOnPair s mySlotId theirSlotId = false then Response.duplicateRequest
  else Response.created

/-! ## The program as a transition system -/

/-- The operations of the program, with their inputs. -/
inductive Op where
  | createEvent (user : User) (title : String) (startTime endTime : Date)
      (status : Option EventStatus)
  | updateEvent (user : User) (id : ObjectId) (title : Option String)
      (startTime endTime : Option Date) (status : Option EventStatus)
  | deleteEvent (user : User) (id : ObjectId)
  | createSwapRequest (user : User) (mySlotId theirSlotId : ObjectId)
      (message : Option String) (now : Date)
  | respondToSwapRequest (user : User) (requestId : ObjectId) (accept : Bool)
      (responseMessage : Option String) (now : Date)
  | cancelSwapRequest (user : User) (requestId : ObjectId) (now : Date)
  deriving DecidableEq, Repr

/-- The store that one operation leaves behind. -/
def Op.run (userName : ObjectId → String) (s : Store) : Op → Store
  | Op.createEvent user title startTime endTime status =>
    (SlotSwapper.createEvent s user title startTime endTime status).store
  | Op.updateEvent user id title startTime endTime status =>
    (SlotSwapper.updateEvent s user id title startTime endTime status).store
  | Op.deleteEvent user id => (SlotSwapper.deleteEvent s user id).store
  | Op.createSwapRequest user mySlotId theirSlotId message now =>
    (SlotSwapper.createSwapRequest s user mySlotId theirSlotId message now).store
  | Op.respondToSwapRequest user requestId accept responseMessage now =>
    (SlotSwapper.respondToSwapRequest userName s user requestId accept responseMessage now).store
  | Op.cancelSwapRequest user requestId now => (SlotSwapper.cancelSwapRequest s user requestId now).store

/-- The store after a sequence of operations. -/
def runAll (userName : ObjectId → String) (s : Store) (ops : List Op) : Store :=
  ops.foldl (Op.run userName) s

/-- The filter of the PENDING SwapRequests that reference a slot, as
requester slot or as requested slot. -/
def pendingOn (id : ObjectId) (r : SwapRequest) : Bool :=
  r.status == SwapStatus.PENDING && (r.requesterSlotId == id || r.requestedSlotId == id)

/-- The number of PENDING SwapRequests that reference a slot. -/
def pendingRefs (s : Store) (id : ObjectId) : Nat :=
  countDocuments (pendingOn id) s.swapRequests

/-- The status invariant of the data model: an Event is SWAP_PENDING if and
only if exactly one PENDING SwapRequest references it. -/
def statusInvariant (s : Store) : Prop :=
  ∀ e ∈ s.events, (e.status = EventStatus.SWAP_PENDING ↔ pendingRefs s e._id = 1)

instance (s : Store) : Decidable (statusInvariant s) :=
  inferInstanceAs (Decidable (∀ e ∈ s.events,
    (e.status = EventStatus.SWAP_PENDING ↔ pendingRefs s e._id = 1)))

/-- The Event found by the owner routes, `findOne` on `_id` and `userId`. -/
def ownedEvent (s : Store) (user : User) (id : ObjectId) : Option Event :=
  findOne (fun e => e._id == id && e.userId == user._id) s.events

/-- The operations that leave the SWAP_PENDING mark to the swap routes.  An
owner does not create an Event as SWAP_PENDING; an update does not change
whether the Event it finds is SWAP_PENDING (it neither sets SWAP_PENDING on an
Event that is not, nor gives another status to one that is; an update that
finds no Event, carries no status or repeats the status is among them); a
deletion does not remove an Event that is SWAP_PENDING; a `cancelSwapRequest`
is refused by one of its guards (the request is not found, the caller is not
its requester, or it is not PENDING).  Swap creation and responses are not
restricted. -/
def Op.keepsLocks (s : Store) : Op → Bool
  | Op.createEvent _ _ _ _ status => status != some EventStatus.SWAP_PENDING
  | Op.updateEvent user id _ _ _ status =>
    match ownedEvent s user id with
    | some e =>
      (status.getD e.status == EventStatus.SWAP_PENDING)
        == (e.status == EventStatus.SWAP_PENDING)
    | none => true
  | Op.deleteEvent user id =>
    match ownedEvent s user id with
    | some e => e.status != EventStatus.SWAP_PENDING
    | none => true
  | Op.createSwapRequest _ _ _ _ _ => true
  | Op.respondToSwapRequest _ _ _ _ _ => true
  | Op.cancelSwapRequest user requestId _ =>
    match SwapRequest.findById s.swapRequests requestId with
    | some r => r.requesterUserId != user._id || r.status != SwapStatus.PENDING
    | none => true

/-- Every operation of the sequence keeps the locks in the store it runs on. -/
def allKeepLocks (userName : ObjectId → String) : Store → List Op → Bool
  | _, [] => true
  | s, op :: ops => op.keepsLocks s && allKeepLocks userName (op.run userName s) ops

/-- Some Event with this id is SWAP_PENDING. -/
def lockedIn (events : List Event) (id : ObjectId) : Bool :=
  events.any (fun e => e._id == id && e.status == EventStatus.SWAP_PENDING)

/-- The inductive strengthening of the status invariant: event ids are unique
and below the next fresh id, and every slot id is referenced by one PENDING
SwapRequest when an Event with this id is SWAP_PENDING, and by none otherwise. -/
structure Store.Consistent (s : Store) : Prop where
  unique : s.uniqueEventIds
  fresh : ∀ i ∈ s.events.map (fun e => e._id), i < s.nextId
  refs : ∀ id, pendingRefs s id = if lockedIn s.events id then 1 else 0

/-- What an operation does to the ledger: nothing, the insertion of one
document, or the rewrite by `save()` of a request that was PENDING. -/
inductive LedgerStep (s t : Store) : Prop where
  | same (h : t.swapRequests = s.swapRequests)
  | inserted (R : SwapRequest) (h : t.swapRequests = s.swapRequests ++ [R])
  | resolved (rid : ObjectId) (now : Date) (R doc : SwapRequest)
      (hR : SwapRequest.findById s.swapRequests rid = some R)
      (hP : R.status = SwapStatus.PENDING)
      (h : t.swapRequests
        = updateOne (fun r => r._id == rid) (SwapRequest.persist now doc) s.swapRequests)

/-! ## A concrete scenario -/

/-- User U1 of the scenario. -/
def scenarioU1 : User := { _id := 10, name := "U1" }

/-- User U2 of the scenario. -/
def scenarioU2 : User := { _id := 20, name := "U2" }

/-- The user directory of the scenario. -/
def scenarioNames : ObjectId → String :=
  fun id => if id = 10 then "U1" else "U2"

/-- The store after U1 has created Event A (10:00 to 11:00, in minutes of the
day) and U2 has created Event B (14:00 to 15:00), both SWAPPABLE. -/
def scenarioStore : Store :=
  (createEvent
    (createEvent Store.empty scenarioU1 "A" 600 660 (some EventStatus.SWAPPABLE)).store
    scenarioU2 "B" 840 900 (some EventStatus.SWAPPABLE)).store

/-- The scenario after U1 has requested the swap of A (id 0) with B (id 1);
the SwapRequest has id 2. -/
def scenarioPending : Store :=
  (createSwapRequest scenarioStore scenarioU1 0 1 (some "swap?") 5).store

/-- Event A as it stands in `scenarioPending`. -/
def scenarioA : Event :=
  { _id := 0, userId := 10, title := "A", startTime := 600, endTime := 660,
    status := EventStatus.SWAP_PENDING, lastUpdated := some 5, lastAction := none }

/-- Event B as it stands in `scenarioPending`. -/
def scenarioB : Event :=
  { _id := 1, userId := 20, title := "B", startTime := 840, endTime := 900,
    status := EventStatus.SWAP_PENDING, lastUpdated := some 5, lastAction := none }

/-- The SwapRequest stored in `scenarioPending`. -/
def scenarioRequest : SwapRequest :=
  { _id := 2, requesterSlotId := 0, requestedSlotId := 1, requesterUserId := 10,
    requestedUserId := 20, status := SwapStatus.PENDING, createdAt := 5, updatedAt := 5,
    requestMessage := none, responseMessage := none, respondedAt := none,
    completedAt := none, cancelledAt := none, originalTimes := none }

/-- The scenario after U2 has accepted the request. -/
def scenarioAccepted : Store :=
  (respondToSwapRequest scenarioNames scenarioPending scenarioU2 2 true (some "ok") 6).store

/-- The scenario after U1 has requested the swap and both owners have then set
their slot back to SWAPPABLE with the update route. -/
def scenarioReopened : Store :=
  runAll scenarioNames scenarioPending
    [Op.updateEvent scenarioU1 0 none none none (some EventStatus.SWAPPABLE),
     Op.updateEvent scenarioU2 1 none none none (some EventStatus.SWAPPABLE)]

/-- What a test reads from an Event: id, owner, times, status, audit tag. -/
def Event.view (e : Event) :
    ObjectId × ObjectId × Date × Date × EventStatus × Option LastAction :=
  (e._id, e.userId, e.startTime, e.endTime, e.status, e.lastAction)

/-! ## Collection lemmas -/

theorem findOne_some_holds {α : Type} (p : α → Bool) (l : List α) (d : α)
    (h : findOne p l = some d) : p d = true := by
  unfold findOne at h
  exact List.find?_some h

theorem findOne_some_mem {α : Type} (p : α → Bool) (l : List α) (d : α)
    (h : findOne p l = some d) : d ∈ l := by
  unfold findOne at h
  exact List.mem_of_find?_eq_some h

/-- After `updateOne`, the first match of the same filter is the rewritten
document, when the rewrite keeps the filter's verdict. -/
theorem findOne_updateOne_self {α : Type} (p : α → Bool) (f : α → α)
    (hf : ∀ d, p d = true → p (f d) = true) (l : List α) (d : α)
    (h : findOne p l = some d) : findOne p (updateOne p f l) = some (f d) := by
  induction l with
  | nil => simp [findOne] at h
  | cons x xs ih =>
    unfold findOne at h ih ⊢
    by_cases hx : p x = true
    · have hd : x = d := by simpa [List.find?, hx] using h
      subst hd
      simp [updateOne, hx, List.find?, hf x hx]
    · have hx' : p x = false := by simpa using hx
      have hxs : List.find? p xs = some d := by simpa [List.find?, hx'] using h
      simp [updateOne, hx', List.find?, ih hxs]

/-- A filter that rejects both the document rewritten by `updateOne` and its
rewrite finds the same document before and after. -/
theorem findOne_updateOne_other {α : Type} (p q : α → Bool) (f : α → α)
    (hq : ∀ d, p d = true → q d = false ∧ q (f d) = false) (l : List α) :
    findOne q (updateOne p f l) = findOne q l := by
  induction l with
  | nil => rfl
  | cons x xs ih =>
    unfold findOne at ih ⊢
    by_cases hx : p x = true
    · obtain ⟨h1, h2⟩ := hq x hx
      simp [updateOne, hx, List.find?, h1, h2]
    · have hx' : p x = false := by simpa using hx
      simp only [updateOne, hx', List.find?]
      cases hqx : q x <;> simp [ih]

theorem eventFindById_id (events : List Event) (id : ObjectId) (e : Event)
    (h : Event.findById events id = some e) : e._id = id := by
  have := findOne_some_holds _ _ _ h
  simpa using this

theorem requestFindById_id (requests : List SwapRequest) (id : ObjectId)
    (r : SwapRequest) (h : SwapRequest.findById requests id = some r) : r._id = id := by
  have := findOne_some_holds _ _ _ h
  simpa using this

/-- Reading back the Event that `findByIdAndUpdate` has just written. -/
theorem Event.findById_update_same (events : List Event) (id : ObjectId)
    (f : Event → Event) (hf : ∀ e, (f e)._id = e._id) (e : Event)
    (h : Event.findById events id = some e) :
    Event.findById (Event.findByIdAndUpdate events id f) id = some (f e) := by
  unfold Event.findById Event.findByIdAndUpdate at *
  apply findOne_updateOne_self _ _ _ _ _ h
  intro d hd
  simpa [hf d] using hd

/-- Reading an Event other than the one `findByIdAndUpdate` has written. -/
theorem Event.findById_update_other (events : List Event) (i j : ObjectId)
    (f : Event → Event) (hf : ∀ e, (f e)._id = e._id) (hij : i ≠ j) :
    Event.findById (Event.findByIdAndUpdate events i f) j = Event.findById events j := by
  unfold Event.findById Event.findByIdAndUpdate
  apply findOne_updateOne_other
  intro d hd
  have hdi : d._id = i := by simpa using hd
  simp [hf d, hdi, hij]

/-- The helper `createNotification` writes neither Events nor SwapRequests. -/
theorem createNotification_events (s : Store) (userId : ObjectId) (type : NotificationType)
    (title message : String) (relatedId : ObjectId) (actionRequired : Bool) (now : Date) :
    (createNotification s userId type title message relatedId actionRequired now).events
      = s.events := by
  unfold createNotification
  split <;> rfl

theorem createNotification_swapRequests (s : Store) (userId : ObjectId)
    (type : NotificationType) (title message : String) (relatedId : ObjectId)
    (actionRequired : Bool) (now : Date) :
    (createNotification s userId type title message relatedId actionRequired now).swapRequests
      = s.swapRequests := by
  unfold createNotification
  split <;> rfl

/-! ## The accept path -/

/-- The store written by an accepted response, in closed form. -/
theorem respond_accept_store (userName : ObjectId → String) (s : Store) (user : User)
    (rid : ObjectId) (responseMessage : Option String) (now : Date)
    (R : SwapRequest) (a b : Event)
    (hR : SwapRequest.findById s.swapRequests rid = some R)
    (hU : R.requestedUserId = user._id)
    (hP : R.status = SwapStatus.PENDING)
    (hA : Event.findById s.events R.requesterSlotId = some a)
    (hB : Event.findById s.events R.requestedSlotId = some b) :
    (respondToSwapRequest userName s user rid true responseMessage now).response
      = Response.ok ∧
    (respondToSwapRequest userName s user rid true responseMessage now).store.events =
      Event.findByIdAndUpdate
        (Event.findByIdAndUpdate s.events R.requesterSlotId (acceptUpdate now b))
        R.requestedSlotId (acceptUpdate now a) ∧
    (respondToSwapRequest userName s user rid true responseMessage now).store.swapRequests =
      updateOne (fun r => r._id == rid)
        (SwapRequest.persist now { R with status := SwapStatus.ACCEPTED }) s.swapRequests := by
  have ha := eventFindById_id _ _ _ hA
  have hb := eventFindById_id _ _ _ hB
  have hr := requestFindById_id _ _ _ hR
  simp [respondToSwapRequest, hR, hU, hP, hA, hB, SwapRequest.save, SwapRequest.validate,
    statusEnum, createNotification_events, createNotification_swapRequests, ha, hb, hr]
  refine ⟨rfl, ?_⟩
  congr 1

/-- Reading back the SwapRequest that `save()` has just written. -/
theorem SwapRequest.findById_persist (requests : List SwapRequest) (rid : ObjectId)
    (now : Date) (doc R : SwapRequest)
    (hR : SwapRequest.findById requests rid = some R) :
    SwapRequest.findById
      (updateOne (fun r => r._id == rid) (SwapRequest.persist now doc) requests) rid
      = some (SwapRequest.persist now doc R) := by
  unfold SwapRequest.findById at *
  apply findOne_updateOne_self _ _ _ _ _ hR
  intro d hd
  simpa [SwapRequest.persist] using hd

/-- Two successive `findByIdAndUpdate` calls, read back at the first id. -/
theorem Event.findById_update_update_fst (events : List Event) (i j : ObjectId)
    (f g : Event → Event) (hf : ∀ e, (f e)._id = e._id) (hg : ∀ e, (g e)._id = e._id)
    (a : Event) (hA : Event.findById events i = some a) :
    Event.findById (Event.findByIdAndUpdate (Event.findByIdAndUpdate events i f) j g) i
      = some (if i = j then g (f a) else f a) := by
  have h1 := Event.findById_update_same events i f hf a hA
  by_cases hij : i = j
  · subst hij
    simpa using Event.findById_update_same _ i g hg _ h1
  · rw [Event.findById_update_other _ j i g hg (Ne.symm hij), h1]
    simp [hij]

/-- Two successive `findByIdAndUpdate` calls, read back at the second id. -/
theorem Event.findById_update_update_snd (events : List Event) (i j : ObjectId)
    (f g : Event → Event) (hf : ∀ e, (f e)._id = e._id) (hg : ∀ e, (g e)._id = e._id)
    (b : Event) (hB : Event.findById events j = some b) :
    Event.findById (Event.findByIdAndUpdate (Event.findByIdAndUpdate events i f) j g) j
      = some (if i = j then g (f b) else g b) := by
  by_cases hij : i = j
  · subst hij
    have h1 := Event.findById_update_same events i f hf b hB
    simpa using Event.findById_update_same _ i g hg _ h1
  · have h1 : Event.findById (Event.findByIdAndUpdate events i f) j = some b := by
      rw [Event.findById_update_other _ i j f hf hij, hB]
    simpa [hij] using Event.findById_update_same _ j g hg _ h1

/-- What accepting a PENDING request does, for every store: the response is
200, the two Events exchange their times and become BUSY under their own
owners, the stored request becomes ACCEPTED, and every path of the stored
request that the schema does not declare (`originalTimes` among them) keeps
the value it had in the collection. -/
theorem respond_accept_effect (userName : ObjectId → String) (s : Store) (user : User)
    (rid : ObjectId) (responseMessage : Option String) (now : Date)
    (R : SwapRequest) (a b : Event)
    (hR : SwapRequest.findById s.swapRequests rid = some R)
    (hU : R.requestedUserId = user._id)
    (hP : R.status = SwapStatus.PENDING)
    (hA : Event.findById s.events R.requesterSlotId = some a)
    (hB : Event.findById s.events R.requestedSlotId = some b) :
    (respondToSwapRequest userName s user rid true responseMessage now).response
      = Response.ok ∧
    (∃ a2, Event.findById
        (respondToSwapRequest userName s user rid true responseMessage now).store.events
        R.requesterSlotId = some a2 ∧
      a2.startTime = b.startTime ∧ a2.endTime = b.endTime ∧
      a2.status = EventStatus.BUSY ∧ a2.userId = a.userId) ∧
    (∃ b2, Event.findById
        (respondToSwapRequest userName s user rid true responseMessage now).store.events
        R.requestedSlotId = some b2 ∧
      b2.startTime = a.startTime ∧ b2.endTime = a.endTime ∧
      b2.status = EventStatus.BUSY ∧ b2.userId = b.userId) ∧
    (∃ R2, SwapRequest.findById
        (respondToSwapRequest userName s user rid true responseMessage now).store.swapRequests
        rid = some R2 ∧
      R2.status = SwapStatus.ACCEPTED ∧ R2.originalTimes = R.originalTimes ∧
      R2.respondedAt = R.respondedAt ∧ R2.completedAt = R.completedAt ∧
      R2.responseMessage = R.responseMessage) := by
  obtain ⟨h1, h2, h3⟩ :=
    respond_accept_store userName s user rid responseMessage now R a b hR hU hP hA hB
  refine ⟨h1, ?_, ?_, ?_⟩
  · rw [h2, Event.findById_update_update_fst _ _ _ (acceptUpdate now b) (acceptUpdate now a)
      (fun _ => rfl) (fun _ => rfl) a hA]
    refine ⟨_, rfl, ?_⟩
    by_cases hij : R.requesterSlotId = R.requestedSlotId
    · have hab : a = b := by
        rw [hij] at hA
        exact Option.some.inj (hA.symm.trans hB)
      subst hab
      simp [hij, acceptUpdate]
    · simp [hij, acceptUpdate]
  · rw [h2, Event.findById_update_update_snd _ _ _ (acceptUpdate now b) (acceptUpdate now a)
      (fun _ => rfl) (fun _ => rfl) b hB]
    refine ⟨_, rfl, ?_⟩
    by_cases hij : R.requesterSlotId = R.requestedSlotId
    · have hab : a = b := by
        rw [hij] at hA
        exact Option.some.inj (hA.symm.trans hB)
      subst hab
      simp [hij, acceptUpdate]
    · simp [hij, acceptUpdate]
  · rw [h3, SwapRequest.findById_persist _ _ _ _ R hR]
    exact ⟨_, rfl, rfl, rfl, rfl, rfl, rfl⟩

/-- C1 (the code at the failing input): in the scenario, U2 accepts the PENDING
request between A (10:00 to 11:00) and B (14:00 to 15:00).  The response is
200, A and B have exchanged their times and are BUSY, the stored request is
ACCEPTED, but the stored request has no `originalTimes` (nor `respondedAt`,
`completedAt`, `responseMessage`): the claimed snapshot is not stored. -/
theorem accept_does_not_store_originalTimes :
    (respondToSwapRequest scenarioNames scenarioPending scenarioU2 2 true (some "ok") 6).response
      = Response.ok ∧
    (respondToSwapRequest scenarioNames scenarioPending scenarioU2 2 true (some "ok") 6).store.events.map
        Event.view
      = [(0, 10, 840, 900, EventStatus.BUSY, some LastAction.SWAP_ACCEPTED),
         (1, 20, 600, 660, EventStatus.BUSY, some LastAction.SWAP_ACCEPTED)] ∧
    (respondToSwapRequest scenarioNames scenarioPending scenarioU2 2 true (some "ok") 6).store.swapRequests.map
        (fun r => (r._id, r.status, r.originalTimes, r.respondedAt, r.completedAt,
          r.responseMessage))
      = [(2, SwapStatus.ACCEPTED, none, none, none, none)] ∧
    (respondToSwapRequest scenarioNames scenarioPending scenarioU2 2 true (some "ok") 6).store.swapRequests.map
        (fun r => r.originalTimes)
      ≠ [some { requester := { start := 600, stop := 660 },
                requested := { start := 840, stop := 900 } }] := by
  refine ⟨by decide, rfl, rfl, by decide⟩

/-! ## The cancel route -/

/-- What cancelling a PENDING request does, for every store: both slots are
rewritten by `cancelUpdate`, then `save()` rejects the status CANCELLED, the
handler answers 500, and neither the stored request nor the notifications
change. -/
theorem cancel_pending_store (s : Store) (user : User) (rid : ObjectId) (now : Date)
    (R : SwapRequest) (a b : Event)
    (hR : SwapRequest.findById s.swapRequests rid = some R)
    (hU : R.requesterUserId = user._id)
    (hP : R.status = SwapStatus.PENDING)
    (hA : Event.findById s.events R.requesterSlotId = some a)
    (hB : Event.findById s.events R.requestedSlotId = some b) :
    (cancelSwapRequest s user rid now).response = Response.serverError ∧
    (cancelSwapRequest s user rid now).store.events =
      Event.findByIdAndUpdate
        (Event.findByIdAndUpdate s.events R.requesterSlotId (cancelUpdate now))
        R.requestedSlotId (cancelUpdate now) ∧
    (cancelSwapRequest s user rid now).store.swapRequests = s.swapRequests ∧
    (cancelSwapRequest s user rid now).store.notifications = s.notifications := by
  have ha := eventFindById_id _ _ _ hA
  have hb := eventFindById_id _ _ _ hB
  simp [cancelSwapRequest, hR, hU, hP, hA, hB, SwapRequest.save, SwapRequest.validate,
    statusEnum, ha, hb]
  rfl

/-- C2 (the code at the failing input): in the scenario, the requester U1
cancels the PENDING request.  The handler answers 500, the stored request is
still PENDING with no `cancelledAt`, no notification is added, and both Events
have already been reverted to SWAPPABLE with `lastAction = SWAP_CANCELLED`. -/
theorem cancel_fails_on_status_enum :
    (cancelSwapRequest scenarioPending scenarioU1 2 6).response = Response.serverError ∧
    (cancelSwapRequest scenarioPending scenarioU1 2 6).response.isSuccess = false ∧
    (cancelSwapRequest scenarioPending scenarioU1 2 6).store.swapRequests.map
        (fun r => (r._id, r.status, r.cancelledAt))
      = [(2, SwapStatus.PENDING, none)] ∧
    (cancelSwapRequest scenarioPending scenarioU1 2 6).store.events.map Event.view
      = [(0, 10, 600, 660, EventStatus.SWAPPABLE, some LastAction.SWAP_CANCELLED),
         (1, 20, 840, 900, EventStatus.SWAPPABLE, some LastAction.SWAP_CANCELLED)] ∧
    (cancelSwapRequest scenarioPending scenarioU1 2 6).store.notifications
      = scenarioPending.notifications ∧
    SwapRequest.validate { scenarioRequest with status := SwapStatus.CANCELLED } = false := by
  refine ⟨by decide, by decide, rfl, rfl, rfl, by decide⟩

/-! ## The reject path -/

/-- The store written by a rejecting response, in closed form. -/
theorem respond_reject_store (userName : ObjectId → String) (s : Store) (user : User)
    (rid : ObjectId) (responseMessage : Option String) (now : Date)
    (R : SwapRequest) (a b : Event)
    (hR : SwapRequest.findById s.swapRequests rid = some R)
    (hU : R.requestedUserId = user._id)
    (hP : R.status = SwapStatus.PENDING)
    (hA : Event.findById s.events R.requesterSlotId = some a)
    (hB : Event.findById s.events R.requestedSlotId = some b) :
    (respondToSwapRequest userName s user rid false responseMessage now).response
      = Response.ok ∧
    (respondToSwapRequest userName s user rid false responseMessage now).store.events =
      Event.findByIdAndUpdate
        (Event.findByIdAndUpdate s.events R.requesterSlotId (rejectUpdate now))
        R.requestedSlotId (rejectUpdate now) ∧
    (respondToSwapRequest userName s user rid false responseMessage now).store.swapRequests =
      updateOne (fun r => r._id == rid)
        (SwapRequest.persist now { R with status := SwapStatus.REJECTED }) s.swapRequests := by
  have ha := eventFindById_id _ _ _ hA
  have hb := eventFindById_id _ _ _ hB
  have hr := requestFindById_id _ _ _ hR
  simp [respondToSwapRequest, hR, hU, hP, hA, hB, SwapRequest.save, SwapRequest.validate,
    statusEnum, createNotification_events, createNotification_swapRequests, ha, hb, hr]
  refine ⟨rfl, ?_⟩
  congr 1

/-- C7: for every store with a PENDING SwapRequest R (found under `rid`) whose
two Events exist, `respondToSwapRequest` called by `R.requestedUserId` with
`accept = false` answers 200; afterwards both Events have status SWAPPABLE and
`lastAction = SWAP_REJECTED`, their `startTime` and `endTime` are unchanged,
and the stored R has status REJECTED. -/
theorem respond_reject_effect (userName : ObjectId → String) (s : Store) (user : User)
    (rid : ObjectId) (responseMessage : Option String) (now : Date)
    (R : SwapRequest) (a b : Event)
    (hR : SwapRequest.findById s.swapRequests rid = some R)
    (hU : R.requestedUserId = user._id)
    (hP : R.status = SwapStatus.PENDING)
    (hA : Event.findById s.events R.requesterSlotId = some a)
    (hB : Event.findById s.events R.requestedSlotId = some b) :
    (respondToSwapRequest userName s user rid false responseMessage now).response
      = Response.ok ∧
    (∃ a2, Event.findById
        (respondToSwapRequest userName s user rid false responseMessage now).store.events
        R.requesterSlotId = some a2 ∧
      a2.status = EventStatus.SWAPPABLE ∧ a2.lastAction = some LastAction.SWAP_REJECTED ∧
      a2.startTime = a.startTime ∧ a2.endTime = a.endTime) ∧
    (∃ b2, Event.findById
        (respondToSwapRequest userName s user rid false responseMessage now).store.events
        R.requestedSlotId = some b2 ∧
      b2.status = EventStatus.SWAPPABLE ∧ b2.lastAction = some LastAction.SWAP_REJECTED ∧
      b2.startTime = b.startTime ∧ b2.endTime = b.endTime) ∧
    (∃ R2, SwapRequest.findById
        (respondToSwapRequest userName s user rid false responseMessage now).store.swapRequests
        rid = some R2 ∧
      R2.status = SwapStatus.REJECTED) := by
  obtain ⟨h1, h2, h3⟩ :=
    respond_reject_store userName s user rid responseMessage now R a b hR hU hP hA hB
  refine ⟨h1, ?_, ?_, ?_⟩
  · rw [h2, Event.findById_update_update_fst _ _ _ (rejectUpdate now) (rejectUpdate now)
      (fun _ => rfl) (fun _ => rfl) a hA]
    refine ⟨_, rfl, ?_⟩
    split <;> simp [rejectUpdate]
  · rw [h2, Event.findById_update_update_snd _ _ _ (rejectUpdate now) (rejectUpdate now)
      (fun _ => rfl) (fun _ => rfl) b hB]
    refine ⟨_, rfl, ?_⟩
    split <;> simp [rejectUpdate]
  · rw [h3, SwapRequest.findById_persist _ _ _ _ R hR]
    exact ⟨_, rfl, rfl⟩

/-- C7 at the scenario: U2 rejects the PENDING request between A and B. -/
theorem respond_reject_effect_witness :
    SwapRequest.findById scenarioPending.swapRequests 2 = some scenarioRequest ∧
    scenarioRequest.requestedUserId = scenarioU2._id ∧
    scenarioRequest.status = SwapStatus.PENDING ∧
    Event.findById scenarioPending.events scenarioRequest.requesterSlotId = some scenarioA ∧
    Event.findById scenarioPending.events scenarioRequest.requestedSlotId = some scenarioB ∧
    (respondToSwapRequest scenarioNames scenarioPending scenarioU2 2 false none 6).response
      = Response.ok ∧
    (∃ a2, Event.findById
        (respondToSwapRequest scenarioNames scenarioPending scenarioU2 2 false none 6).store.events
        scenarioRequest.requesterSlotId = some a2 ∧
      a2.status = EventStatus.SWAPPABLE ∧ a2.lastAction = some LastAction.SWAP_REJECTED ∧
      a2.startTime = scenarioA.startTime ∧ a2.endTime = scenarioA.endTime) ∧
    (∃ b2, Event.findById
        (respondToSwapRequest scenarioNames scenarioPending scenarioU2 2 false none 6).store.events
        scenarioRequest.requestedSlotId = some b2 ∧
      b2.status = EventStatus.SWAPPABLE ∧ b2.lastAction = some LastAction.SWAP_REJECTED ∧
      b2.startTime = scenarioB.startTime ∧ b2.endTime = scenarioB.endTime) ∧
    (∃ R2, SwapRequest.findById
        (respondToSwapRequest scenarioNames scenarioPending scenarioU2 2 false none 6).store.swapRequests
        2 = some R2 ∧
      R2.status = SwapStatus.REJECTED) :=
  ⟨rfl, rfl, rfl, rfl, rfl,
    respond_reject_effect scenarioNames scenarioPending scenarioU2 2 none 6
      scenarioRequest scenarioA scenarioB rfl rfl rfl rfl rfl⟩

/-! ## The guards of the respond and cancel routes -/

/-- C8 (counterexample): in the scenario after the accept, the request is
ACCEPTED, and a response by U1, who is not the requested user, is answered 403
(Forbidden), not AlreadyProcessed. -/
theorem respond_accepted_by_other_is_forbidden :
    (SwapRequest.findById scenarioAccepted.swapRequests 2).map (fun r => r.status)
      = some SwapStatus.ACCEPTED ∧
    (respondToSwapRequest scenarioNames scenarioAccepted scenarioU1 2 true none 7).response
      = Response.forbidden ∧
    (respondToSwapRequest scenarioNames scenarioAccepted scenarioU1 2 true none 7).response
      ≠ Response.alreadyProcessed := by
  refine ⟨rfl, by decide, by decide⟩

/-- C8 (amended): a response to a SwapRequest that is already ACCEPTED never
succeeds and leaves the whole store (Events, SwapRequests, Notifications) as it
was, for every caller, `accept` value and `responseMessage`; the error is
AlreadyProcessed when the caller is `R.requestedUserId`, and Forbidden for every
other caller. -/
theorem respond_accepted_no_mutation (userName : ObjectId → String) (s : Store)
    (user : User) (rid : ObjectId) (accept : Bool) (responseMessage : Option String)
    (now : Date) (R : SwapRequest)
    (hR : SwapRequest.findById s.swapRequests rid = some R)
    (hS : R.status = SwapStatus.ACCEPTED) :
    (respondToSwapRequest userName s user rid accept responseMessage now).store = s ∧
    (R.requestedUserId = user._id →
      (respondToSwapRequest userName s user rid accept responseMessage now).response
        = Response.alreadyProcessed) ∧
    (R.requestedUserId ≠ user._id →
      (respondToSwapRequest userName s user rid accept responseMessage now).response
        = Response.forbidden) := by
  by_cases hU : R.requestedUserId = user._id
  · simp [respondToSwapRequest, hR, hU, hS]
  · simp [respondToSwapRequest, hR, hU]

/-- C8 (amended) at the scenario: U2 answers the ACCEPTED request a second
time. -/
theorem respond_accepted_no_mutation_witness :
    SwapRequest.findById scenarioAccepted.swapRequests 2
      = some { scenarioRequest with status := SwapStatus.ACCEPTED, updatedAt := 6 } ∧
    (respondToSwapRequest scenarioNames scenarioAccepted scenarioU2 2 true none 7).store
      = scenarioAccepted ∧
    (respondToSwapRequest scenarioNames scenarioAccepted scenarioU2 2 true none 7).response
      = Response.alreadyProcessed :=
  ⟨rfl,
    (respond_accepted_no_mutation scenarioNames scenarioAccepted scenarioU2 2 true none 7
      { scenarioRequest with status := SwapStatus.ACCEPTED, updatedAt := 6 } rfl rfl).1,
    (respond_accepted_no_mutation scenarioNames scenarioAccepted scenarioU2 2 true none 7
      { scenarioRequest with status := SwapStatus.ACCEPTED, updatedAt := 6 } rfl rfl).2.1 rfl⟩

/-- C9: for every existing SwapRequest R (found under `rid`) and every caller,
`cancelSwapRequest` by a caller other than `R.requesterUserId` (the requested
user included) answers Forbidden, and by `R.requesterUserId` when `R.status` is
not PENDING answers AlreadyProcessed; in both cases the store is unchanged. -/
theorem cancel_guards (s : Store) (user : User) (rid : ObjectId) (now : Date)
    (R : SwapRequest) (hR : SwapRequest.findById s.swapRequests rid = some R) :
    (user._id ≠ R.requesterUserId →
      (cancelSwapRequest s user rid now).response = Response.forbidden ∧
      (cancelSwapRequest s user rid now).store = s) ∧
    (user._id = R.requestedUserId → user._id ≠ R.requesterUserId →
      (cancelSwapRequest s user rid now).response = Response.forbidden) ∧
    (user._id = R.requesterUserId → R.status ≠ SwapStatus.PENDING →
      (cancelSwapRequest s user rid now).response = Response.alreadyProcessed ∧
      (cancelSwapRequest s user rid now).store = s) := by
  refine ⟨?_, ?_, ?_⟩
  · intro hU
    have hU2 : ¬ R.requesterUserId = user._id := fun h => hU h.symm
    simp [cancelSwapRequest, hR, hU2]
  · intro _ hU
    have hU2 : ¬ R.requesterUserId = user._id := fun h => hU h.symm
    simp [cancelSwapRequest, hR, hU2]
  · intro hU hS
    simp [cancelSwapRequest, hR, hU.symm, hS]

/-- C9 at the scenario: the requested user U2 may not cancel the PENDING
request, and the requester U1 may not cancel it once it is ACCEPTED. -/
theorem cancel_guards_witness :
    SwapRequest.findById scenarioPending.swapRequests 2 = some scenarioRequest ∧
    ((cancelSwapRequest scenarioPending scenarioU2 2 6).response = Response.forbidden ∧
      (cancelSwapRequest scenarioPending scenarioU2 2 6).store = scenarioPending) ∧
    SwapRequest.findById scenarioAccepted.swapRequests 2
      = some { scenarioRequest with status := SwapStatus.ACCEPTED, updatedAt := 6 } ∧
    ((cancelSwapRequest scenarioAccepted scenarioU1 2 7).response = Response.alreadyProcessed ∧
      (cancelSwapRequest scenarioAccepted scenarioU1 2 7).store = scenarioAccepted) :=
  ⟨rfl, (cancel_guards scenarioPending scenarioU2 2 6 scenarioRequest rfl).1 (by decide),
    rfl,
    (cancel_guards scenarioAccepted scenarioU1 2 7
      { scenarioRequest with status := SwapStatus.ACCEPTED, updatedAt := 6 } rfl).2.2
      rfl (by decide)⟩

/-- C10: for every existing SwapRequest R (found under `rid`, in any status),
every responder other than `R.requestedUserId` and both values of `accept`,
`respondToSwapRequest` answers Forbidden and leaves the store unchanged. -/
theorem respond_forbidden (userName : ObjectId → String) (s : Store) (user : User)
    (rid : ObjectId) (accept : Bool) (responseMessage : Option String) (now : Date)
    (R : SwapRequest) (hR : SwapRequest.findById s.swapRequests rid = some R)
    (hU : user._id ≠ R.requestedUserId) :
    (respondToSwapRequest userName s user rid accept responseMessage now).response
      = Response.forbidden ∧
    (respondToSwapRequest userName s user rid accept responseMessage now).store = s := by
  have hU2 : ¬ R.requestedUserId = user._id := fun h => hU h.symm
  simp [respondToSwapRequest, hR, hU2]

/-- C10 at the scenario: the requester U1 answers the PENDING request. -/
theorem respond_forbidden_witness :
    SwapRequest.findById scenarioPending.swapRequests 2 = some scenarioRequest ∧
    scenarioU1._id ≠ scenarioRequest.requestedUserId ∧
    (respondToSwapRequest scenarioNames scenarioPending scenarioU1 2 false none 6).response
      = Response.forbidden ∧
    (respondToSwapRequest scenarioNames scenarioPending scenarioU1 2 false none 6).store
      = scenarioPending :=
  ⟨rfl, by decide,
    respond_forbidden scenarioNames scenarioPending scenarioU1 2 false none 6
      scenarioRequest rfl (by decide)⟩

/-! ## Request creation -/

/-- A conjunctive filter whose first conjunct already selects `d` finds `d`
when `d` passes the second conjunct. -/
theorem findOne_and_of_findOne {α : Type} (p q : α → Bool) (l : List α) (d : α)
    (h : findOne p l = some d) (hq : q d = true) :
    findOne (fun x => p x && q x) l = some d := by
  induction l with
  | nil => simp [findOne] at h
  | cons x xs ih =>
    unfold findOne at h ih ⊢
    by_cases hx : p x = true
    · have hd : x = d := by simpa [List.find?, hx] using h
      subst hd
      simp [List.find?, hx, hq]
    · have hx2 : p x = false := by simpa using hx
      have hxs : List.find? p xs = some d := by simpa [List.find?, hx2] using h
      simp [List.find?, hx2, ih hxs]

/-- The duplicate check finds nothing when no PENDING request is on the pair. -/
theorem findOne_existingRequest_none (requests : List SwapRequest) (A B : ObjectId)
    (h : ∀ r ∈ requests, r.status = SwapStatus.PENDING →
      ¬ ((r.requesterSlotId = A ∧ r.requestedSlotId = B) ∨
         (r.requesterSlotId = B ∧ r.requestedSlotId = A))) :
    findOne (existingRequestFilter A B) requests = none := by
  unfold findOne
  rw [List.find?_eq_none]
  intro r hr
  have := h r hr
  simp only [existingRequestFilter, Bool.and_eq_true, Bool.or_eq_true, beq_iff_eq]
  tauto

/-- The update applied to both slots by a successful request creation. -/
theorem createSwapRequest_store (s : Store) (user : User) (A B : ObjectId)
    (message : Option String) (now : Date) (a b : Event)
    (hA : findOne (fun e => e._id == A && e.userId == user._id) s.events = some a)
    (hB : findOne (fun e => e._id == B && e.status == EventStatus.SWAPPABLE) s.events
      = some b)
    (hAs : a.status = EventStatus.SWAPPABLE)
    (hBo : b.userId ≠ user._id)
    (hNo : findOne (existingRequestFilter A B) s.swapRequests = none) :
    (createSwapRequest s user A B message now).response = Response.created ∧
    (createSwapRequest s user A B message now).store.events =
      Event.findByIdAndUpdate (Event.findByIdAndUpdate s.events A (pendingUpdate now))
        B (pendingUpdate now) ∧
    (createSwapRequest s user A B message now).store.swapRequests =
      s.swapRequests ++ [newSwapRequest s.nextId A B user._id b.userId now] := by
  simp [createSwapRequest, hA, hB, hAs, hBo, hNo, SwapRequest.insert, SwapRequest.validate,
    statusEnum, createNotification_events, createNotification_swapRequests]
  exact ⟨rfl, rfl⟩

/-- C4: for every store in which requester U1 owns slot A with status
SWAPPABLE, slot B has status SWAPPABLE and an owner U2 other than U1, and no
PENDING SwapRequest is on the pair, `createSwapRequest(U1, A, B, message)`
answers 201, appends exactly one SwapRequest, which is PENDING with
`requesterSlotId = A`, `requestedSlotId = B`, `requesterUserId = A.ownerId = U1`
and `requestedUserId = B.ownerId = U2`, and leaves A and B with status
SWAP_PENDING under their owners. -/
theorem createSwapRequest_effect (s : Store) (user : User) (A B : ObjectId)
    (message : Option String) (now : Date) (a b : Event)
    (hA : Event.findById s.events A = some a)
    (hAo : a.userId = user._id)
    (hAs : a.status = EventStatus.SWAPPABLE)
    (hB : Event.findById s.events B = some b)
    (hBs : b.status = EventStatus.SWAPPABLE)
    (hBo : b.userId ≠ user._id)
    (hNo : ∀ r ∈ s.swapRequests, r.status = SwapStatus.PENDING →
      ¬ ((r.requesterSlotId = A ∧ r.requestedSlotId = B) ∨
         (r.requesterSlotId = B ∧ r.requestedSlotId = A))) :
    (createSwapRequest s user A B message now).response = Response.created ∧
    (∃ R, (createSwapRequest s user A B message now).store.swapRequests
        = s.swapRequests ++ [R] ∧
      R.status = SwapStatus.PENDING ∧ R.requesterSlotId = A ∧ R.requestedSlotId = B ∧
      R.requesterUserId = a.userId ∧ R.requesterUserId = user._id ∧
      R.requestedUserId = b.userId) ∧
    (∃ a2, Event.findById (createSwapRequest s user A B message now).store.events A
        = some a2 ∧
      a2.status = EventStatus.SWAP_PENDING ∧ a2.userId = a.userId) ∧
    (∃ b2, Event.findById (createSwapRequest s user A B message now).store.events B
        = some b2 ∧
      b2.status = EventStatus.SWAP_PENDING ∧ b2.userId = b.userId) := by
  have hA2 : findOne (fun e => e._id == A && e.userId == user._id) s.events = some a :=
    findOne_and_of_findOne (fun e : Event => e._id == A)
      (fun e : Event => e.userId == user._id) _ _ hA
      (by simp [hAo])
  have hB2 : findOne (fun e => e._id == B && e.status == EventStatus.SWAPPABLE) s.events
      = some b :=
    findOne_and_of_findOne (fun e : Event => e._id == B)
      (fun e : Event => e.status == EventStatus.SWAPPABLE) _ _ hB (by simp [hBs])
  obtain ⟨h1, h2, h3⟩ := createSwapRequest_store s user A B message now a b hA2 hB2 hAs hBo
    (findOne_existingRequest_none _ A B hNo)
  refine ⟨h1, ⟨_, h3, rfl, rfl, rfl, hAo.symm, rfl, rfl⟩, ?_, ?_⟩
  · rw [h2, Event.findById_update_update_fst _ _ _ (pendingUpdate now) (pendingUpdate now)
      (fun _ => rfl) (fun _ => rfl) a hA]
    refine ⟨_, rfl, ?_⟩
    split <;> simp [pendingUpdate]
  · rw [h2, Event.findById_update_update_snd _ _ _ (pendingUpdate now) (pendingUpdate now)
      (fun _ => rfl) (fun _ => rfl) b hB]
    refine ⟨_, rfl, ?_⟩
    split <;> simp [pendingUpdate]

/-- C4 at the scenario: U1 requests the swap of A (id 0) with B (id 1). -/
theorem createSwapRequest_effect_witness :
    Event.findById scenarioStore.events 0
      = some { scenarioA with status := EventStatus.SWAPPABLE, lastUpdated := none } ∧
    Event.findById scenarioStore.events 1
      = some { scenarioB with status := EventStatus.SWAPPABLE, lastUpdated := none } ∧
    (createSwapRequest scenarioStore scenarioU1 0 1 (some "swap?") 5).response
      = Response.created ∧
    (∃ R, (createSwapRequest scenarioStore scenarioU1 0 1 (some "swap?") 5).store.swapRequests
        = scenarioStore.swapRequests ++ [R] ∧
      R.status = SwapStatus.PENDING ∧ R.requesterSlotId = 0 ∧ R.requestedSlotId = 1 ∧
      R.requesterUserId = 10 ∧ R.requesterUserId = scenarioU1._id ∧
      R.requestedUserId = 20) ∧
    (∃ a2, Event.findById
        (createSwapRequest scenarioStore scenarioU1 0 1 (some "swap?") 5).store.events 0
        = some a2 ∧
      a2.status = EventStatus.SWAP_PENDING ∧ a2.userId = 10) ∧
    (∃ b2, Event.findById
        (createSwapRequest scenarioStore scenarioU1 0 1 (some "swap?") 5).store.events 1
        = some b2 ∧
      b2.status = EventStatus.SWAP_PENDING ∧ b2.userId = 20) :=
  ⟨rfl, rfl,
    createSwapRequest_effect scenarioStore scenarioU1 0 1 (some "swap?") 5
      { scenarioA with status := EventStatus.SWAPPABLE, lastUpdated := none }
      { scenarioB with status := EventStatus.SWAPPABLE, lastUpdated := none }
      rfl rfl rfl rfl rfl (by decide) (fun r hr => nomatch hr)⟩

/-! ### Unique ids -/

/-- In a collection with unique ids, a member is what `findById` returns. -/
theorem Event.findById_of_mem (events : List Event)
    (hU : (events.map (fun e => e._id)).Nodup) (e : Event) (he : e ∈ events) :
    Event.findById events e._id = some e := by
  induction events with
  | nil => cases he
  | cons x xs ih =>
    rw [List.map_cons, List.nodup_cons] at hU
    unfold Event.findById findOne at ih ⊢
    rcases List.mem_cons.mp he with h | h
    · subst h
      simp [List.find?]
    · have hne : x._id ≠ e._id := by
        intro hx
        apply hU.1
        rw [hx]
        exact List.mem_map_of_mem (fun e => e._id) h
      have hne2 : (x._id == e._id) = false := by simpa using hne
      simp only [List.find?, hne2]
      exact ih hU.2 h

/-- In a collection with unique ids, a filter on the id and a property finds
the document with that id when it has the property, and nothing otherwise. -/
theorem findOne_id_and (events : List Event)
    (hU : (events.map (fun e => e._id)).Nodup) (i : ObjectId) (q : Event → Bool) :
    findOne (fun e => e._id == i && q e) events
      = (Event.findById events i).filter q := by
  cases h : Event.findById events i with
  | none =>
    unfold Event.findById findOne at h
    rw [List.find?_eq_none] at h
    unfold findOne
    simp only [Option.filter]
    rw [List.find?_eq_none]
    intro x hx
    have := h x hx
    simp only [Bool.and_eq_true, not_and]
    intro h1
    exact absurd h1 this
  | some e =>
    by_cases hq : q e = true
    · rw [findOne_and_of_findOne (fun e : Event => e._id == i) q _ _ h hq]
      simp [Option.filter, hq]
    · have hq2 : q e = false := by simpa using hq
      simp only [Option.filter, hq2, Bool.false_eq_true, if_false]
      unfold findOne
      rw [List.find?_eq_none]
      intro x hx
      simp only [Bool.and_eq_true, beq_iff_eq, not_and]
      intro hxi
      have hx2 := Event.findById_of_mem events hU x hx
      rw [hxi, h] at hx2
      have : e = x := Option.some.inj hx2
      subst this
      simp [hq2]

/-- In a collection with unique ids, some document has the id and a property
exactly when the document found under the id has the property. -/
theorem any_id_and_iff (events : List Event)
    (hU : (events.map (fun e => e._id)).Nodup) (i : ObjectId) (q : Event → Bool) :
    events.any (fun e => e._id == i && q e) = true
      ↔ ∃ a, Event.findById events i = some a ∧ q a = true := by
  rw [List.any_eq_true]
  constructor
  · rintro ⟨x, hx, hp⟩
    simp only [Bool.and_eq_true, beq_iff_eq] at hp
    refine ⟨x, ?_, hp.2⟩
    rw [← hp.1]
    exact Event.findById_of_mem events hU x hx
  · rintro ⟨a, ha, hq⟩
    refine ⟨a, findOne_some_mem _ _ _ ha, ?_⟩
    simp [eventFindById_id _ _ _ ha, hq]

theorem ownersDiffer_iff (s : Store) (hU : s.uniqueEventIds) (my their : ObjectId) :
    ownersDiffer s my their = true
      ↔ ∀ a b, Event.findById s.events my = some a →
          Event.findById s.events their = some b → a.userId ≠ b.userId := by
  unfold ownersDiffer
  simp only [List.all_eq_true, Bool.or_eq_true, Bool.not_eq_true', Bool.and_eq_false_iff,
    bne_iff_ne, ne_eq, beq_eq_false_iff_ne]
  constructor
  · intro h a b ha hb
    have h1 := h a (findOne_some_mem _ _ _ ha) b (findOne_some_mem _ _ _ hb)
    have ia := eventFindById_id _ _ _ ha
    have ib := eventFindById_id _ _ _ hb
    tauto
  · intro h a ha b hb
    by_cases hab : a._id = my ∧ b._id = their
    · right
      apply h a b
      · rw [← hab.1]; exact Event.findById_of_mem _ hU a ha
      · rw [← hab.2]; exact Event.findById_of_mem _ hU b hb
    · left
      tauto

theorem noPendingOnPair_iff (s : Store) (my their : ObjectId) :
    noPendingOnPair s my their = true
      ↔ findOne (existingRequestFilter my their) s.swapRequests = none := by
  unfold noPendingOnPair findOne
  rw [List.find?_eq_none, List.all_eq_true]
  constructor
  · intro h r hr
    have := h r hr
    simp only [existingRequestFilter]
    cases h1 : r.status == SwapStatus.PENDING <;> simp_all
    tauto
  · intro h r hr
    have := h r hr
    simp only [existingRequestFilter] at this
    cases h1 : r.status == SwapStatus.PENDING <;> simp_all
    tauto

theorem any_id_and_eq (events : List Event)
    (hU : (events.map (fun e => e._id)).Nodup) (i : ObjectId) (q : Event → Bool) :
    events.any (fun e => e._id == i && q e)
      = ((Event.findById events i).filter q).isSome := by
  rw [Bool.eq_iff_iff, any_id_and_iff events hU]
  cases Event.findById events i with
  | none => simp [Option.filter]
  | some a => cases hq : q a <;> simp [Option.filter, hq]

theorem ownersDiffer_eq (s : Store) (hU : s.uniqueEventIds) (my their : ObjectId) :
    ownersDiffer s my their
      = (match Event.findById s.events my, Event.findById s.events their with
         | some a, some b => a.userId != b.userId
         | _, _ => true) := by
  rw [Bool.eq_iff_iff, ownersDiffer_iff s hU]
  cases Event.findById s.events my with
  | none => simp
  | some a =>
    cases Event.findById s.events their with
    | none => simp
    | some b => simp

theorem noPendingOnPair_eq (s : Store) (my their : ObjectId) :
    noPendingOnPair s my their
      = (findOne (existingRequestFilter my their) s.swapRequests).isNone := by
  rw [Bool.eq_iff_iff, noPendingOnPair_iff]
  cases findOne (existingRequestFilter my their) s.swapRequests <;> simp

/-- Under unique event ids, the response of `createSwapRequest` is the one the
specification prescribes, and a failing call leaves the store as it was. -/
theorem createSwapRequest_expected (s : Store) (hU : s.uniqueEventIds) (user : User)
    (my their : ObjectId) (message : Option String) (now : Date) :
    (createSwapRequest s user my their message now).response
      = expectedCreateResponse s user._id my their ∧
    ((createSwapRequest s user my their message now).response ≠ Response.created →
      (createSwapRequest s user my their message now).store = s) := by
  unfold expectedCreateResponse mySlotOwned theirSlotSwappable mySlotSwappable
  rw [any_id_and_eq s.events hU my (fun e => e.userId == user._id),
    any_id_and_eq s.events hU their (fun e => e.status == EventStatus.SWAPPABLE),
    any_id_and_eq s.events hU my (fun e => e.status == EventStatus.SWAPPABLE),
    ownersDiffer_eq s hU, noPendingOnPair_eq]
  unfold createSwapRequest
  simp only [findOne_id_and s.events hU]
  cases hA : Event.findById s.events my with
  | none => simp [Option.filter]
  | some a =>
    cases hB : Event.findById s.events their with
    | none =>
      by_cases h1 : a.userId = user._id <;> simp [Option.filter, h1]
    | some b =>
      have hc : (user._id = b.userId) = (b.userId = user._id) := propext eq_comm
      by_cases h1 : a.userId = user._id <;>
      by_cases h2 : b.status = EventStatus.SWAPPABLE <;>
      by_cases h3 : a.status = EventStatus.SWAPPABLE <;>
      by_cases h4 : b.userId = user._id <;>
      cases h5 : findOne (existingRequestFilter my their) s.swapRequests <;>
      simp [Option.filter, h1, h2, h3, h4, h5, hc, SwapRequest.insert, SwapRequest.validate,
        statusEnum]

/-- C6: in every store (with unique event ids) and for every input
`(requesterId, mySlotId, theirSlotId)`, `createSwapRequest` fails if and only
if one of the five preconditions fails; a failing precondition 1 or 2 is
answered with the invalid-slots error, and otherwise the error is that of the
lowest-numbered failing precondition (InvalidState for 3, SelfSwapNotAllowed
for 4, DuplicateRequest for 5); a failing call leaves the whole store (Events,
SwapRequests, Notifications) unchanged. -/
theorem createSwapRequest_preconditions (s : Store) (hU : s.uniqueEventIds) (user : User)
    (my their : ObjectId) (message : Option String) (now : Date) :
    ((createSwapRequest s user my their message now).response.isSuccess = false ↔
      ¬ (mySlotOwned s user._id my = true ∧ theirSlotSwappable s their = true ∧
         mySlotSwappable s my = true ∧ ownersDiffer s my their = true ∧
         noPendingOnPair s my their = true)) ∧
    (mySlotOwned s user._id my = false ∨ theirSlotSwappable s their = false →
      (createSwapRequest s user my their message now).response = Response.invalidSlots) ∧
    (mySlotOwned s user._id my = true → theirSlotSwappable s their = true →
      mySlotSwappable s my = false →
      (createSwapRequest s user my their message now).response = Response.invalidState) ∧
    (mySlotOwned s user._id my = true → theirSlotSwappable s their = true →
      mySlotSwappable s my = true → ownersDiffer s my their = false →
      (createSwapRequest s user my their message now).response
        = Response.selfSwapNotAllowed) ∧
    (mySlotOwned s user._id my = true → theirSlotSwappable s their = true →
      mySlotSwappable s my = true → ownersDiffer s my their = true →
      noPendingOnPair s my their = false →
      (createSwapRequest s user my their message now).response
        = Response.duplicateRequest) ∧
    ((createSwapRequest s user my their message now).response.isSuccess = false →
      (createSwapRequest s user my their message now).store = s) := by
  obtain ⟨hr, hs⟩ := createSwapRequest_expected s hU user my their message now
  refine ⟨?_, ?_, ?_, ?_, ?_, ?_⟩
  · rw [hr]
    unfold expectedCreateResponse
    cases mySlotOwned s user._id my <;> cases theirSlotSwappable s their <;>
      cases mySlotSwappable s my <;> cases ownersDiffer s my their <;>
      cases noPendingOnPair s my their <;> simp [Response.isSuccess]
  · rw [hr]
    unfold expectedCreateResponse
    rintro (h | h)
    · simp [h]
    · cases mySlotOwned s user._id my <;> simp [h]
  · intro h1 h2 h3
    rw [hr]
    simp [expectedCreateResponse, h1, h2, h3]
  · intro h1 h2 h3 h4
    rw [hr]
    simp [expectedCreateResponse, h1, h2, h3, h4]
  · intro h1 h2 h3 h4 h5
    rw [hr]
    simp [expectedCreateResponse, h1, h2, h3, h4, h5]
  · intro hf
    apply hs
    intro hc
    rw [hc] at hf
    simp [Response.isSuccess] at hf

/-- C6 at the scenario: U1 asks to swap slot A with itself; preconditions 1 to
3 hold, precondition 4 fails, the answer is SelfSwapNotAllowed and the store
is unchanged. -/
theorem createSwapRequest_preconditions_witness :
    scenarioStore.uniqueEventIds ∧
    (createSwapRequest scenarioStore scenarioU1 0 0 none 5).response
      = Response.selfSwapNotAllowed ∧
    (createSwapRequest scenarioStore scenarioU1 0 0 none 5).store = scenarioStore :=
  ⟨by decide,
    (createSwapRequest_preconditions scenarioStore (by decide) scenarioU1 0 0 none 5).2.2.2.1
      rfl rfl rfl rfl,
    (createSwapRequest_preconditions scenarioStore (by decide) scenarioU1 0 0 none 5).2.2.2.2.2
      rfl⟩

/-! ### A second request on the same pair -/

/-- `updateOne` keeps every projection that the rewrite keeps. -/
theorem map_updateOne {α β : Type} (p : α → Bool) (f : α → α) (g : α → β)
    (hg : ∀ d, g (f d) = g d) (l : List α) : (updateOne p f l).map g = l.map g := by
  induction l with
  | nil => rfl
  | cons x xs ih =>
    by_cases hx : p x = true
    · simp [updateOne, hx, hg]
    · simp [updateOne, hx, ih]

/-- What a successful request creation has checked. -/
theorem createSwapRequest_created_inv (s : Store) (user : User) (my their : ObjectId)
    (message : Option String) (now : Date)
    (h : (createSwapRequest s user my their message now).response = Response.created) :
    ∃ a b, findOne (fun e => e._id == my && e.userId == user._id) s.events = some a ∧
      findOne (fun e => e._id == their && e.status == EventStatus.SWAPPABLE) s.events
        = some b ∧
      a.status = EventStatus.SWAPPABLE ∧ b.userId ≠ user._id ∧
      findOne (existingRequestFilter my their) s.swapRequests = none := by
  unfold createSwapRequest at h
  cases hA : findOne (fun e => e._id == my && e.userId == user._id) s.events with
  | none => simp [hA] at h
  | some a =>
    cases hB : findOne (fun e => e._id == their && e.status == EventStatus.SWAPPABLE)
        s.events with
    | none => simp [hA, hB] at h
    | some b =>
      refine ⟨a, b, rfl, rfl, ?_⟩
      by_cases h3 : a.status = EventStatus.SWAPPABLE
      · by_cases h4 : b.userId = user._id
        · simp [hA, hB, h3, h4] at h
        · cases h5 : findOne (existingRequestFilter my their) s.swapRequests with
          | none => exact ⟨h3, h4, rfl⟩
          | some r => simp [hA, hB, h3, h4, h5] at h
      · simp [hA, hB, h3] at h

/-- When the requested slot is not found SWAPPABLE, the answer is the
invalid-slots error and nothing is written. -/
theorem createSwapRequest_of_theirSlot_none (s : Store) (user : User)
    (my their : ObjectId) (message : Option String) (now : Date)
    (h : findOne (fun e => e._id == their && e.status == EventStatus.SWAPPABLE) s.events
      = none) :
    createSwapRequest s user my their message now = ⟨s, Response.invalidSlots⟩ := by
  unfold createSwapRequest
  cases hA : findOne (fun e => e._id == my && e.userId == user._id) s.events <;>
    simp [h]

/-- When the duplicate check finds a request, the call fails with one of the
four precondition errors and nothing is written; DuplicateRequest is the
answer only if the two slot lookups succeeded. -/
theorem createSwapRequest_of_existing (s : Store) (user : User)
    (my their : ObjectId) (message : Option String) (now : Date) (r : SwapRequest)
    (h : findOne (existingRequestFilter my their) s.swapRequests = some r) :
    (createSwapRequest s user my their message now).store = s ∧
    (createSwapRequest s user my their message now).response ∈
      [Response.invalidSlots, Response.invalidState, Response.selfSwapNotAllowed,
       Response.duplicateRequest] ∧
    ((createSwapRequest s user my their message now).response = Response.duplicateRequest →
      mySlotOwned s user._id my = true ∧ theirSlotSwappable s their = true) := by
  unfold createSwapRequest mySlotOwned theirSlotSwappable
  cases hA : findOne (fun e => e._id == my && e.userId == user._id) s.events with
  | none => simp
  | some a =>
    cases hB : findOne (fun e => e._id == their && e.status == EventStatus.SWAPPABLE)
        s.events with
    | none => simp
    | some b =>
      have ha := findOne_some_holds _ _ _ hA
      have hb := findOne_some_holds _ _ _ hB
      have ma := findOne_some_mem _ _ _ hA
      have mb := findOne_some_mem _ _ _ hB
      have e1 : (s.events.any fun e => e._id == my && e.userId == user._id) = true :=
        List.any_eq_true.mpr ⟨a, ma, ha⟩
      have e2 : (s.events.any fun e => e._id == their && e.status == EventStatus.SWAPPABLE)
          = true := List.any_eq_true.mpr ⟨b, mb, hb⟩
      by_cases h3 : a.status = EventStatus.SWAPPABLE <;>
      by_cases h4 : b.userId = user._id <;>
      simp [h3, h4, h, e1, e2]

/-- After a successful creation both slots are found SWAP_PENDING, so neither
is found by a lookup for a SWAPPABLE slot. -/
theorem createSwapRequest_slots_locked (s0 : Store) (hU : s0.uniqueEventIds) (user1 : User)
    (A B : ObjectId) (message0 : Option String) (now0 : Date)
    (h1 : (createSwapRequest s0 user1 A B message0 now0).response = Response.created) :
    findOne (fun e => e._id == A && e.status == EventStatus.SWAPPABLE)
      (createSwapRequest s0 user1 A B message0 now0).store.events = none ∧
    findOne (fun e => e._id == B && e.status == EventStatus.SWAPPABLE)
      (createSwapRequest s0 user1 A B message0 now0).store.events = none ∧
    (∃ r ∈ (createSwapRequest s0 user1 A B message0 now0).store.swapRequests,
      r.status = SwapStatus.PENDING ∧ r.requesterSlotId = A ∧ r.requestedSlotId = B) := by
  obtain ⟨a, b, hA, hB, hAs, hBo, hNo⟩ :=
    createSwapRequest_created_inv s0 user1 A B message0 now0 h1
  obtain ⟨_, h2, h3⟩ := createSwapRequest_store s0 user1 A B message0 now0 a b hA hB hAs hBo hNo
  have ia : a._id = A := by
    have := findOne_some_holds _ _ _ hA
    simp only [Bool.and_eq_true, beq_iff_eq] at this
    exact this.1
  have ib : b._id = B := by
    have := findOne_some_holds _ _ _ hB
    simp only [Bool.and_eq_true, beq_iff_eq] at this
    exact this.1
  have fa : Event.findById s0.events A = some a := by
    rw [← ia]
    exact Event.findById_of_mem _ hU a (findOne_some_mem _ _ _ hA)
  have fb : Event.findById s0.events B = some b := by
    rw [← ib]
    exact Event.findById_of_mem _ hU b (findOne_some_mem _ _ _ hB)
  have hU1 : ((createSwapRequest s0 user1 A B message0 now0).store.events.map
      (fun e => e._id)).Nodup := by
    rw [h2]
    unfold Event.findByIdAndUpdate
    rw [map_updateOne _ (pendingUpdate now0) (fun e : Event => e._id) (fun _ => rfl),
      map_updateOne _ (pendingUpdate now0) (fun e : Event => e._id) (fun _ => rfl)]
    exact hU
  refine ⟨?_, ?_, ?_⟩
  · rw [findOne_id_and _ hU1, h2,
      Event.findById_update_update_fst _ _ _ (pendingUpdate now0) (pendingUpdate now0)
        (fun _ => rfl) (fun _ => rfl) a fa]
    split <;> simp [Option.filter, pendingUpdate]
  · rw [findOne_id_and _ hU1, h2,
      Event.findById_update_update_snd _ _ _ (pendingUpdate now0) (pendingUpdate now0)
        (fun _ => rfl) (fun _ => rfl) b fb]
    split <;> simp [Option.filter, pendingUpdate]
  · rw [h3]
    exact ⟨_, List.mem_append_right _ (List.mem_singleton_self _), rfl, rfl, rfl⟩

/-- C5 (counterexample): in the scenario, while the request of U1 on (A, B) is
PENDING, a second request on the pair (by U1 for (A, B), by U2 for (B, A)) is
answered with the invalid-slots error, not with DuplicateRequest. -/
theorem second_create_is_not_duplicateRequest :
    (SwapRequest.findById scenarioPending.swapRequests 2).map (fun r => r.status)
      = some SwapStatus.PENDING ∧
    (createSwapRequest scenarioPending scenarioU1 0 1 none 6).response
      = Response.invalidSlots ∧
    (createSwapRequest scenarioPending scenarioU2 1 0 none 6).response
      = Response.invalidSlots ∧
    (createSwapRequest scenarioPending scenarioU1 0 1 none 6).response
      ≠ Response.duplicateRequest := by
  refine ⟨rfl, by decide, by decide, by decide⟩

/-- C5 (amended): after `createSwapRequest(U1, A, B)` has succeeded, every
second `createSwapRequest` on the pair, in either direction and by any caller,
made in the store the first call left behind is answered with the
invalid-slots error (the requested slot is SWAP_PENDING, no longer SWAPPABLE)
and changes nothing.  More generally, in every store that holds a PENDING
request on (A, B), such a call fails with the invalid-slots error,
InvalidState, SelfSwapNotAllowed or DuplicateRequest and changes no Event,
SwapRequest or Notification; DuplicateRequest is the answer only when the
caller owns its slot and the requested slot is SWAPPABLE. -/
theorem second_createSwapRequest_fails (s0 : Store) (hU : s0.uniqueEventIds)
    (user1 : User) (A B : ObjectId) (message0 : Option String) (now0 : Date)
    (h1 : (createSwapRequest s0 user1 A B message0 now0).response = Response.created) :
    (∀ (user : User) (x y : ObjectId) (message : Option String) (now : Date),
      (x = A ∧ y = B) ∨ (x = B ∧ y = A) →
      createSwapRequest (createSwapRequest s0 user1 A B message0 now0).store
          user x y message now
        = ⟨(createSwapRequest s0 user1 A B message0 now0).store, Response.invalidSlots⟩) ∧
    (∃ r ∈ (createSwapRequest s0 user1 A B message0 now0).store.swapRequests,
      r.status = SwapStatus.PENDING ∧ r.requesterSlotId = A ∧ r.requestedSlotId = B) ∧
    (∀ s : Store,
      (∃ r ∈ s.swapRequests,
        r.status = SwapStatus.PENDING ∧ r.requesterSlotId = A ∧ r.requestedSlotId = B) →
      ∀ (user : User) (x y : ObjectId) (message : Option String) (now : Date),
        (x = A ∧ y = B) ∨ (x = B ∧ y = A) →
        (createSwapRequest s user x y message now).store = s ∧
        (createSwapRequest s user x y message now).response ∈
          [Response.invalidSlots, Response.invalidState, Response.selfSwapNotAllowed,
           Response.duplicateRequest] ∧
        ((createSwapRequest s user x y message now).response = Response.duplicateRequest →
          mySlotOwned s user._id x = true ∧ theirSlotSwappable s y = true)) := by
  obtain ⟨hA, hB, hR⟩ := createSwapRequest_slots_locked s0 hU user1 A B message0 now0 h1
  refine ⟨?_, hR, ?_⟩
  · rintro user x y message now (⟨rfl, rfl⟩ | ⟨rfl, rfl⟩)
    · exact createSwapRequest_of_theirSlot_none _ user _ _ message now hB
    · exact createSwapRequest_of_theirSlot_none _ user _ _ message now hA
  · rintro s ⟨r, hr, hp, ha, hb⟩ user x y message now hxy
    cases h : findOne (existingRequestFilter x y) s.swapRequests with
    | none =>
      exfalso
      unfold findOne at h
      rw [List.find?_eq_none] at h
      apply h r hr
      simp only [existingRequestFilter, Bool.and_eq_true, Bool.or_eq_true, beq_iff_eq]
      rcases hxy with ⟨rfl, rfl⟩ | ⟨rfl, rfl⟩
      · exact ⟨Or.inl ⟨ha, hb⟩, hp⟩
      · exact ⟨Or.inr ⟨ha, hb⟩, hp⟩
    | some r2 => exact createSwapRequest_of_existing s user x y message now r2 h

/-- C5 (amended) at the scenario: U1 repeats its request on (A, B). -/
theorem second_createSwapRequest_fails_witness :
    scenarioStore.uniqueEventIds ∧
    (createSwapRequest scenarioStore scenarioU1 0 1 (some "swap?") 5).response
      = Response.created ∧
    createSwapRequest scenarioPending scenarioU1 0 1 none 6
      = ⟨scenarioPending, Response.invalidSlots⟩ :=
  ⟨by decide, by decide,
    (second_createSwapRequest_fails scenarioStore (by decide) scenarioU1 0 1 (some "swap?") 5
      (by decide)).1 scenarioU1 0 1 none 6 (Or.inl ⟨rfl, rfl⟩)⟩

/-! ## The status invariant -/

/-- C3 (counterexample): four runs from the empty store that break the
status invariant.  An owner creates an Event with status SWAP_PENDING, or
updates an Event to SWAP_PENDING (no request references it); an owner sets the
status of a slot under a PENDING request to BUSY (one PENDING request
references a BUSY Event); an owner deletes the requested slot of a PENDING
request and then rejects the request (the requester slot is SWAPPABLE while
the request stays PENDING). -/
theorem statusInvariant_broken_by_owner :
    ¬ statusInvariant (runAll scenarioNames Store.empty
      [Op.createEvent scenarioU1 "A" 600 660 (some EventStatus.SWAP_PENDING)]) ∧
    ¬ statusInvariant (runAll scenarioNames Store.empty
      [Op.createEvent scenarioU1 "A" 600 660 none,
       Op.updateEvent scenarioU1 0 none none none (some EventStatus.SWAP_PENDING)]) ∧
    ¬ statusInvariant (runAll scenarioNames Store.empty
      [Op.createEvent scenarioU1 "A" 600 660 (some EventStatus.SWAPPABLE),
       Op.createEvent scenarioU2 "B" 840 900 (some EventStatus.SWAPPABLE),
       Op.createSwapRequest scenarioU1 0 1 none 5,
       Op.updateEvent scenarioU1 0 none none none (some EventStatus.BUSY)]) ∧
    ¬ statusInvariant (runAll scenarioNames Store.empty
      [Op.createEvent scenarioU1 "A" 600 660 (some EventStatus.SWAPPABLE),
       Op.createEvent scenarioU2 "B" 840 900 (some EventStatus.SWAPPABLE),
       Op.createSwapRequest scenarioU1 0 1 none 5,
       Op.deleteEvent scenarioU2 1,
       Op.respondToSwapRequest scenarioU2 2 false none 6]) := by
  refine ⟨by decide, by decide, by decide, by decide⟩

/-! ### Counting and membership under the collection operations -/

theorem countDocuments_append {α : Type} (q : α → Bool) (l : List α) (x : α) :
    countDocuments q (l ++ [x]) = countDocuments q l + (if q x then 1 else 0) := by
  unfold countDocuments
  by_cases hx : q x = true <;> simp [List.filter_append, List.filter, hx]

/-- Rewriting one document moves the count by what the document contributed
before and after. -/
theorem countDocuments_updateOne {α : Type} (p q : α → Bool) (f : α → α) (l : List α)
    (d : α) (h : findOne p l = some d) :
    countDocuments q (updateOne p f l) + (if q d then 1 else 0)
      = countDocuments q l + (if q (f d) then 1 else 0) := by
  induction l with
  | nil => simp [findOne] at h
  | cons x xs ih =>
    unfold findOne at h ih
    unfold countDocuments at ih ⊢
    by_cases hx : p x = true
    · have hd : x = d := by simpa [List.find?, hx] using h
      subst hd
      by_cases h1 : q x = true <;> by_cases h2 : q (f x) = true <;>
        simp [updateOne, hx, List.filter, h1, h2]
    · have hx2 : p x = false := by simpa using hx
      have hxs : List.find? p xs = some d := by simpa [List.find?, hx2] using h
      have := ih hxs
      by_cases h1 : q x = true
      · simp only [updateOne, hx2, List.filter, h1, List.length_cons] at this ⊢
        omega
      · have h1f : q x = false := by simpa using h1
        simp only [updateOne, hx2, List.filter, h1f] at this ⊢
        simpa using this

theorem countDocuments_pos {α : Type} (q : α → Bool) (l : List α) (x : α)
    (hx : x ∈ l) (hq : q x = true) : 1 ≤ countDocuments q l := by
  unfold countDocuments
  exact List.length_pos_of_mem (List.mem_filter.mpr ⟨hx, hq⟩)

theorem deleteOne_eq_eraseP {α : Type} (p : α → Bool) (l : List α) :
    deleteOne p l = l.eraseP p := by
  induction l with
  | nil => rfl
  | cons x xs ih =>
    by_cases hx : p x = true
    · simp [deleteOne, hx]
    · simp [deleteOne, hx, ih]

/-- Reading any id after `findByIdAndUpdate`. -/
theorem Event.findById_update (events : List Event) (i j : ObjectId)
    (f : Event → Event) (hf : ∀ e, (f e)._id = e._id) :
    Event.findById (Event.findByIdAndUpdate events i f) j
      = if j = i then (Event.findById events i).map f else Event.findById events j := by
  by_cases hij : j = i
  · subst hij
    simp only [if_true]
    cases h : Event.findById events j with
    | none =>
      have hnone : Event.findByIdAndUpdate events j f = events := by
        unfold Event.findById findOne at h
        rw [List.find?_eq_none] at h
        unfold Event.findByIdAndUpdate
        clear hf
        induction events with
        | nil => rfl
        | cons x xs ih =>
          have hx := h x (List.mem_cons_self _ _)
          have hx2 : (x._id == j) = false := by simpa using hx
          simp only [updateOne, hx2]
          rw [ih (fun y hy => h y (List.mem_cons_of_mem _ hy))]
          simp
      rw [hnone, h]
      rfl
    | some e =>
      rw [Event.findById_update_same events j f hf e h]
      rfl
  · simp only [hij, if_false]
    exact Event.findById_update_other events i j f hf (fun h => hij h.symm)

/-- Under unique ids, `lockedIn` reads the status of the Event found. -/
theorem lockedIn_eq (events : List Event) (hU : (events.map (fun e => e._id)).Nodup)
    (id : ObjectId) :
    lockedIn events id
      = ((Event.findById events id).filter
          (fun e => e.status == EventStatus.SWAP_PENDING)).isSome :=
  any_id_and_eq events hU id (fun e => e.status == EventStatus.SWAP_PENDING)

/-! ### Each operation keeps the store consistent -/

theorem pendingRefs_congr (s t : Store) (h : t.swapRequests = s.swapRequests)
    (id : ObjectId) : pendingRefs t id = pendingRefs s id := by
  unfold pendingRefs
  rw [h]

theorem consistent_createEvent (s : Store) (h : s.Consistent) (user : User)
    (title : String) (startTime endTime : Date) (status : Option EventStatus)
    (hs : status ≠ some EventStatus.SWAP_PENDING) :
    (createEvent s user title startTime endTime status).store.Consistent := by
  have hst : (status.getD EventStatus.BUSY == EventStatus.SWAP_PENDING) = false := by
    cases status with
    | none => rfl
    | some x =>
      have : x ≠ EventStatus.SWAP_PENDING := fun hx => hs (by rw [hx])
      simpa using this
  have hfresh : s.nextId ∉ s.events.map (fun e => e._id) := by
    intro hm
    exact Nat.lt_irrefl _ (h.fresh _ hm)
  constructor
  · have hu := h.unique
    unfold Store.uniqueEventIds at hu ⊢
    simp only [createEvent, List.map_append, List.map_cons, List.map_nil]
    rw [List.nodup_append]
    refine ⟨hu, List.nodup_singleton _, ?_⟩
    intro x hx hx2
    rw [List.mem_singleton] at hx2
    subst hx2
    exact hfresh hx
  · intro i hi
    simp only [createEvent, List.map_append, List.map_cons, List.map_nil,
      List.mem_append, List.mem_singleton] at hi
    show i < s.nextId + 1
    rcases hi with hi | hi
    · exact Nat.lt_succ_of_lt (h.fresh i hi)
    · rw [hi]
      exact Nat.lt_succ_self _
  · intro id
    have hp : pendingRefs (createEvent s user title startTime endTime status).store id
        = pendingRefs s id := rfl
    rw [hp, h.refs id]
    have : lockedIn (createEvent s user title startTime endTime status).store.events id
        = lockedIn s.events id := by
      simp [lockedIn, createEvent, List.any_append, hst]
    rw [this]

/-- Two members of a collection with unique ids that share their id are the
same document. -/
theorem eq_of_mem_of_id_eq (events : List Event)
    (hU : (events.map (fun e => e._id)).Nodup) (x y : Event) (hx : x ∈ events)
    (hy : y ∈ events) (hxy : x._id = y._id) : x = y := by
  have h1 := Event.findById_of_mem events hU x hx
  have h2 := Event.findById_of_mem events hU y hy
  rw [hxy, h2] at h1
  exact (Option.some.inj h1).symm

/-- The store written by the update route, in closed form. -/
theorem updateEvent_store (s : Store) (user : User) (id : ObjectId)
    (title : Option String) (startTime endTime : Option Date)
    (status : Option EventStatus) (e : Event) (hE : ownedEvent s user id = some e) :
    ∃ (t : String) (st en : Date),
      (updateEvent s user id title startTime endTime status).store =
        { s with
          events := Event.findByIdAndUpdate s.events e._id
            (fun stored => { stored with
              title := t, startTime := st, endTime := en,
              status := status.getD e.status }) } := by
  unfold ownedEvent at hE
  unfold updateEvent
  rw [hE]
  cases title <;> cases startTime <;> cases endTime <;> cases status <;>
    simp only [] <;> (try split_ifs) <;> exact ⟨_, _, _, rfl⟩

theorem updateEvent_store_none (s : Store) (user : User) (id : ObjectId)
    (title : Option String) (startTime endTime : Option Date)
    (status : Option EventStatus) (hE : ownedEvent s user id = none) :
    (updateEvent s user id title startTime endTime status).store = s := by
  unfold ownedEvent at hE
  unfold updateEvent
  rw [hE]

theorem consistent_updateEvent (s : Store) (h : s.Consistent) (user : User)
    (id : ObjectId) (title : Option String) (startTime endTime : Option Date)
    (status : Option EventStatus)
    (hk : Op.keepsLocks s (Op.updateEvent user id title startTime endTime status) = true) :
    (updateEvent s user id title startTime endTime status).store.Consistent := by
  cases hE : ownedEvent s user id with
  | none =>
    rw [updateEvent_store_none s user id title startTime endTime status hE]
    exact h
  | some e =>
    obtain ⟨t, st, en, hstore⟩ :=
      updateEvent_store s user id title startTime endTime status e hE
    rw [hstore]
    have hmem : e ∈ s.events := findOne_some_mem _ _ _ hE
    have hfind : Event.findById s.events e._id = some e :=
      Event.findById_of_mem _ h.unique e hmem
    have hstatus : (status.getD e.status == EventStatus.SWAP_PENDING)
        = (e.status == EventStatus.SWAP_PENDING) := by
      simpa [Op.keepsLocks, hE] using hk
    have hmap : (Event.findByIdAndUpdate s.events e._id
        (fun stored => { stored with
          title := t, startTime := st, endTime := en,
          status := status.getD e.status })).map (fun e => e._id)
        = s.events.map (fun e => e._id) :=
      map_updateOne _ _ _ (by intro _; rfl) _
    have hu : ((Event.findByIdAndUpdate s.events e._id
        (fun stored => { stored with
          title := t, startTime := st, endTime := en,
          status := status.getD e.status })).map (fun e => e._id)).Nodup := by
      rw [hmap]
      exact h.unique
    refine ⟨hu, ?_, ?_⟩
    · intro i hi
      apply h.fresh
      rw [← hmap]
      exact hi
    · intro id2
      show pendingRefs s id2 = _
      rw [h.refs id2]
      have : lockedIn (Event.findByIdAndUpdate s.events e._id
          (fun stored => { stored with
            title := t, startTime := st, endTime := en,
            status := status.getD e.status })) id2 = lockedIn s.events id2 := by
        rw [lockedIn_eq _ hu, lockedIn_eq _ h.unique,
          Event.findById_update _ _ _ _ (by intro _; rfl)]
        by_cases hi : id2 = e._id
        · subst hi
          simp only [hfind, Option.map, Option.filter, hstatus, if_true]
          split <;> rfl
        · simp [hi]
      show _ = if lockedIn (Event.findByIdAndUpdate s.events e._id _) id2 = true then 1 else 0
      rw [this]

theorem consistent_deleteEvent (s : Store) (h : s.Consistent) (user : User)
    (id : ObjectId) (hk : Op.keepsLocks s (Op.deleteEvent user id) = true) :
    (deleteEvent s user id).store.Consistent := by
  cases hE : ownedEvent s user id with
  | none =>
    have : (deleteEvent s user id).store = s := by
      unfold ownedEvent at hE
      unfold deleteEvent
      rw [hE]
    rw [this]
    exact h
  | some e =>
    have hstore : (deleteEvent s user id).store =
        { s with events := s.events.eraseP (fun e => e._id == id && e.userId == user._id) } := by
      unfold ownedEvent at hE
      unfold deleteEvent
      rw [hE, deleteOne_eq_eraseP]
    rw [hstore]
    have hmem : e ∈ s.events := findOne_some_mem _ _ _ hE
    have hpe := findOne_some_holds _ _ _ hE
    simp only [Bool.and_eq_true, beq_iff_eq] at hpe
    have hes : e.status ≠ EventStatus.SWAP_PENDING := by
      simpa [Op.keepsLocks, hE] using hk
    have hsub : ((s.events.eraseP (fun e => e._id == id && e.userId == user._id)).map
        (fun e => e._id)).Sublist (s.events.map (fun e => e._id)) :=
      (List.eraseP_sublist _).map _
    refine ⟨h.unique.sublist hsub, ?_, ?_⟩
    · intro i hi
      exact h.fresh i (hsub.subset hi)
    · intro id2
      show pendingRefs s id2 = _
      rw [h.refs id2]
      have : lockedIn (s.events.eraseP (fun e => e._id == id && e.userId == user._id)) id2
          = lockedIn s.events id2 := by
        unfold lockedIn
        rw [Bool.eq_iff_iff, List.any_eq_true, List.any_eq_true]
        constructor
        · rintro ⟨x, hx, hq⟩
          exact ⟨x, List.mem_of_mem_eraseP hx, hq⟩
        · rintro ⟨x, hx, hq⟩
          refine ⟨x, ?_, hq⟩
          simp only [Bool.and_eq_true, beq_iff_eq] at hq
          apply (List.mem_eraseP_of_neg _).mpr hx
          intro hp
          simp only [Bool.and_eq_true, beq_iff_eq] at hp
          have : x = e :=
            eq_of_mem_of_id_eq _ h.unique x e hx hmem (hp.1.trans hpe.1.symm)
          subst this
          exact hes hq.2
      show _ = if lockedIn (s.events.eraseP _) id2 = true then 1 else 0
      rw [this]

theorem createNotification_nextId (n : Nat) (s : Store) (userId : ObjectId)
    (type : NotificationType) (title message : String) (relatedId : ObjectId)
    (actionRequired : Bool) (now : Date) (hn : n ≤ s.nextId) :
    n ≤ (createNotification s userId type title message relatedId actionRequired now).nextId := by
  unfold createNotification
  split
  · exact hn
  · exact Nat.le_succ_of_le hn

theorem createSwapRequest_nextId (s : Store) (user : User) (A B : ObjectId)
    (message : Option String) (now : Date) (a b : Event)
    (hA : findOne (fun e => e._id == A && e.userId == user._id) s.events = some a)
    (hB : findOne (fun e => e._id == B && e.status == EventStatus.SWAPPABLE) s.events
      = some b)
    (hAs : a.status = EventStatus.SWAPPABLE)
    (hBo : b.userId ≠ user._id)
    (hNo : findOne (existingRequestFilter A B) s.swapRequests = none) :
    s.nextId ≤ (createSwapRequest s user A B message now).store.nextId := by
  simp only [createSwapRequest, hA, hB, hAs, hNo, SwapRequest.insert, SwapRequest.validate,
    statusEnum, ne_eq, not_true_eq_false, if_false, hBo, List.contains_cons,
    beq_self_eq_true, Bool.true_or, if_true]
  apply createNotification_nextId
  exact Nat.le_succ _

/-- Locking two SWAPPABLE slots under one new PENDING request keeps the store
consistent. -/
theorem consistent_createSwapRequest (s : Store) (h : s.Consistent) (user : User)
    (A B : ObjectId) (message : Option String) (now : Date) :
    (createSwapRequest s user A B message now).store.Consistent := by
  by_cases hc : (createSwapRequest s user A B message now).response = Response.created
  · obtain ⟨a, b, hA, hB, hAs, hBo, hNo⟩ :=
      createSwapRequest_created_inv s user A B message now hc
    obtain ⟨_, h2, h3⟩ := createSwapRequest_store s user A B message now a b hA hB hAs hBo hNo
    have hn := createSwapRequest_nextId s user A B message now a b hA hB hAs hBo hNo
    have hpa := findOne_some_holds _ _ _ hA
    have hpb := findOne_some_holds _ _ _ hB
    simp only [Bool.and_eq_true, beq_iff_eq] at hpa hpb
    have fa : Event.findById s.events A = some a := by
      rw [← hpa.1]
      exact Event.findById_of_mem _ h.unique a (findOne_some_mem _ _ _ hA)
    have fb : Event.findById s.events B = some b := by
      rw [← hpb.1]
      exact Event.findById_of_mem _ h.unique b (findOne_some_mem _ _ _ hB)
    have hmap : (createSwapRequest s user A B message now).store.events.map (fun e => e._id)
        = s.events.map (fun e => e._id) := by
      rw [h2]
      unfold Event.findByIdAndUpdate
      rw [map_updateOne _ (pendingUpdate now) (fun e : Event => e._id) (fun _ => rfl),
        map_updateOne _ (pendingUpdate now) (fun e : Event => e._id) (fun _ => rfl)]
    have hu : ((createSwapRequest s user A B message now).store.events.map
        (fun e => e._id)).Nodup := by
      rw [hmap]
      exact h.unique
    refine ⟨hu, ?_, ?_⟩
    · intro i hi
      rw [hmap] at hi
      exact Nat.lt_of_lt_of_le (h.fresh i hi) hn
    · intro id
      have hcount : pendingRefs (createSwapRequest s user A B message now).store id
          = pendingRefs s id + (if A = id ∨ B = id then 1 else 0) := by
        unfold pendingRefs
        rw [h3, countDocuments_append]
        simp [pendingOn, newSwapRequest]
      have hlock : lockedIn (createSwapRequest s user A B message now).store.events id
          = (decide (A = id ∨ B = id) || lockedIn s.events id) := by
        rw [lockedIn_eq _ hu, lockedIn_eq _ h.unique, h2]
        simp only [Event.findById_update _ _ _ (pendingUpdate now) (fun _ => rfl)]
        by_cases hB2 : id = B
        · subst hB2
          by_cases hA2 : id = A
          · subst hA2
            simp [fa, Option.filter, pendingUpdate]
          · simp [hA2, fb, Option.filter, pendingUpdate]
        · by_cases hA2 : id = A
          · subst hA2
            simp [hB2, fa, Option.filter, pendingUpdate]
          · have h1 : ¬ A = id := fun h => hA2 h.symm
            have h2 : ¬ B = id := fun h => hB2 h.symm
            simp [hA2, hB2, h1, h2]
      rw [hcount, hlock, h.refs id]
      by_cases hAB : A = id ∨ B = id
      · have hfree : lockedIn s.events id = false := by
          rw [lockedIn_eq _ h.unique]
          rcases hAB with hx | hx
          · subst hx
            simp [fa, Option.filter, hAs]
          · subst hx
            simp [fb, Option.filter, hpb.2]
        simp [hAB, hfree]
      · simp [hAB]
  · rw [(createSwapRequest_expected s h.unique user A B message now).2 hc]
    exact h

/-- A lookup whose result has been rewritten to a status other than
SWAP_PENDING is not locked. -/
theorem filter_map_unlocked (o : Option Event) (f : Event → Event)
    (hfs : ∀ e, (f e).status ≠ EventStatus.SWAP_PENDING) :
    ((o.map f).filter (fun e => e.status == EventStatus.SWAP_PENDING)).isSome = false := by
  cases o with
  | none => rfl
  | some e =>
    have := hfs e
    simp [Option.filter, this]

/-- Resolving a PENDING request (both slots leave SWAP_PENDING, the request
leaves PENDING) keeps the store consistent. -/
theorem consistent_resolve (s t : Store) (h : s.Consistent) (rid : ObjectId)
    (now : Date) (R doc : SwapRequest) (f g : Event → Event)
    (hR : SwapRequest.findById s.swapRequests rid = some R)
    (hP : R.status = SwapStatus.PENDING)
    (hf : ∀ e, (f e)._id = e._id) (hg : ∀ e, (g e)._id = e._id)
    (hfs : ∀ e, (f e).status ≠ EventStatus.SWAP_PENDING)
    (hgs : ∀ e, (g e).status ≠ EventStatus.SWAP_PENDING)
    (hdoc : doc.status ≠ SwapStatus.PENDING)
    (hev : t.events = Event.findByIdAndUpdate
      (Event.findByIdAndUpdate s.events R.requesterSlotId f) R.requestedSlotId g)
    (hreq : t.swapRequests
      = updateOne (fun r => r._id == rid) (SwapRequest.persist now doc) s.swapRequests)
    (hn : s.nextId ≤ t.nextId) : t.Consistent := by
  have hmap : t.events.map (fun e => e._id) = s.events.map (fun e => e._id) := by
    rw [hev]
    unfold Event.findByIdAndUpdate
    rw [map_updateOne _ g (fun e : Event => e._id) hg,
      map_updateOne _ f (fun e : Event => e._id) hf]
  have hu : (t.events.map (fun e => e._id)).Nodup := by
    rw [hmap]
    exact h.unique
  refine ⟨hu, ?_, ?_⟩
  · intro i hi
    rw [hmap] at hi
    exact Nat.lt_of_lt_of_le (h.fresh i hi) hn
  · intro id
    have hcount : pendingRefs t id + (if pendingOn id R then 1 else 0) = pendingRefs s id := by
      unfold pendingRefs
      rw [hreq]
      have := countDocuments_updateOne (fun r : SwapRequest => r._id == rid) (pendingOn id)
        (SwapRequest.persist now doc) s.swapRequests R hR
      have hoff : pendingOn id (SwapRequest.persist now doc R) = false := by
        simp [pendingOn, SwapRequest.persist, hdoc]
      simpa [hoff] using this
    have hrefs := h.refs id
    rw [lockedIn_eq _ hu, hev]
    simp only [Event.findById_update _ _ _ g hg, Event.findById_update _ _ _ f hf]
    by_cases hAB : R.requesterSlotId = id ∨ R.requestedSlotId = id
    · have hon : pendingOn id R = true := by
        simp only [pendingOn, hP, beq_self_eq_true, Bool.true_and, Bool.or_eq_true,
          beq_iff_eq]
        exact hAB
      simp only [hon, if_true] at hcount
      have hle : pendingRefs s id ≤ 1 := by
        rw [hrefs]
        split <;> simp
      have hzero : pendingRefs t id = 0 := by omega
      rw [hzero]
      by_cases hB2 : id = R.requestedSlotId
      · simp only [hB2, if_true]
        rw [filter_map_unlocked _ g hgs]
        rfl
      · have hA2 : id = R.requesterSlotId := by
          rcases hAB with hx | hx
          · exact hx.symm
          · exact absurd hx.symm hB2
        subst hA2
        simp only [hB2, if_false, if_true]
        rw [filter_map_unlocked _ f hfs]
        rfl
    · have hon : pendingOn id R = false := by
        have h1 : ¬ R.requesterSlotId = id := fun hx => hAB (Or.inl hx)
        have h2 : ¬ R.requestedSlotId = id := fun hx => hAB (Or.inr hx)
        simp [pendingOn, h1, h2]
      have h1 : ¬ id = R.requesterSlotId := fun hx => hAB (Or.inl hx.symm)
      have h2 : ¬ id = R.requestedSlotId := fun hx => hAB (Or.inr hx.symm)
      simp only [hon, Bool.false_eq_true, if_false, Nat.add_zero] at hcount
      simp only [h1, h2, if_false]
      rw [hcount, hrefs, lockedIn_eq _ h.unique]

theorem respond_nextId (userName : ObjectId → String) (s : Store) (user : User)
    (rid : ObjectId) (accept : Bool) (responseMessage : Option String) (now : Date)
    (R : SwapRequest) (a b : Event)
    (hR : SwapRequest.findById s.swapRequests rid = some R)
    (hU : R.requestedUserId = user._id)
    (hP : R.status = SwapStatus.PENDING)
    (hA : Event.findById s.events R.requesterSlotId = some a)
    (hB : Event.findById s.events R.requestedSlotId = some b) :
    s.nextId ≤
      (respondToSwapRequest userName s user rid accept responseMessage now).store.nextId := by
  cases accept with
  | true =>
    simp only [respondToSwapRequest, hR, hU, hP, hA, hB, SwapRequest.save,
      SwapRequest.validate, statusEnum, ne_eq, not_true_eq_false, if_false, if_true,
      List.contains_cons, beq_self_eq_true, Bool.true_or, Bool.or_true]
    apply createNotification_nextId
    apply createNotification_nextId
    exact Nat.le_refl _
  | false =>
    simp only [respondToSwapRequest, hR, hU, hP, hA, hB, SwapRequest.save,
      SwapRequest.validate, statusEnum, ne_eq, not_true_eq_false, if_false, if_true,
      List.contains_cons, beq_self_eq_true, Bool.true_or, Bool.or_true,
      Bool.false_eq_true]
    apply createNotification_nextId
    exact Nat.le_refl _

/-- A response keeps the store consistent. -/
theorem consistent_respond (userName : ObjectId → String) (s : Store) (h : s.Consistent)
    (user : User) (rid : ObjectId) (accept : Bool) (responseMessage : Option String)
    (now : Date) :
    (respondToSwapRequest userName s user rid accept responseMessage now).store.Consistent := by
  cases hR : SwapRequest.findById s.swapRequests rid with
  | none =>
    have : (respondToSwapRequest userName s user rid accept responseMessage now).store = s := by
      simp [respondToSwapRequest, hR]
    rw [this]
    exact h
  | some R =>
    by_cases hU : R.requestedUserId = user._id
    · by_cases hP : R.status = SwapStatus.PENDING
      · have hmemR : R ∈ s.swapRequests := findOne_some_mem _ _ _ hR
        have hfound : ∀ id, pendingOn id R = true → ∃ e, Event.findById s.events id = some e := by
          intro id hon
          have h1 := countDocuments_pos (pendingOn id) s.swapRequests R hmemR hon
          have h2 := h.refs id
          unfold pendingRefs at h2
          have h3 : lockedIn s.events id = true := by
            by_contra hl
            simp only [hl, Bool.false_eq_true, if_false] at h2
            omega
          rw [lockedIn_eq _ h.unique] at h3
          cases hf : Event.findById s.events id with
          | none => simp [hf, Option.filter] at h3
          | some e => exact ⟨e, rfl⟩
        obtain ⟨a, hA⟩ := hfound R.requesterSlotId (by simp [pendingOn, hP])
        obtain ⟨b, hB⟩ := hfound R.requestedSlotId (by simp [pendingOn, hP])
        have hn := respond_nextId userName s user rid accept responseMessage now R a b
          hR hU hP hA hB
        cases accept with
        | true =>
          obtain ⟨_, h2, h3⟩ :=
            respond_accept_store userName s user rid responseMessage now R a b hR hU hP hA hB
          exact consistent_resolve s _ h rid now R { R with status := SwapStatus.ACCEPTED }
            (acceptUpdate now b) (acceptUpdate now a) hR hP (fun _ => rfl) (fun _ => rfl)
            (by intro e; simp [acceptUpdate]) (by intro e; simp [acceptUpdate])
            (by simp) h2 h3 hn
        | false =>
          obtain ⟨_, h2, h3⟩ :=
            respond_reject_store userName s user rid responseMessage now R a b hR hU hP hA hB
          exact consistent_resolve s _ h rid now R { R with status := SwapStatus.REJECTED }
            (rejectUpdate now) (rejectUpdate now) hR hP (fun _ => rfl) (fun _ => rfl)
            (by intro e; simp [rejectUpdate]) (by intro e; simp [rejectUpdate])
            (by simp) h2 h3 hn
      · have : (respondToSwapRequest userName s user rid accept responseMessage now).store
            = s := by
          simp [respondToSwapRequest, hR, hU, hP]
        rw [this]
        exact h
    · have : (respondToSwapRequest userName s user rid accept responseMessage now).store
          = s := by
        simp [respondToSwapRequest, hR, hU]
      rw [this]
      exact h

/-- A consistent store satisfies the status invariant. -/
theorem statusInvariant_of_consistent (s : Store) (h : s.Consistent) :
    statusInvariant s := by
  intro e he
  rw [h.refs e._id, lockedIn_eq _ h.unique, Event.findById_of_mem _ h.unique e he]
  by_cases hs : e.status = EventStatus.SWAP_PENDING
  · simp [Option.filter, hs]
  · simp [Option.filter, hs]

theorem consistent_empty : Store.empty.Consistent := by
  refine ⟨?_, ?_, ?_⟩
  · exact List.nodup_nil
  · intro i hi
    cases hi
  · intro id
    rfl

/-- Every operation that keeps the locks keeps the store consistent. -/
theorem consistent_run (userName : ObjectId → String) (s : Store) (h : s.Consistent)
    (op : Op) (hk : op.keepsLocks s = true) : (op.run userName s).Consistent := by
  cases op with
  | createEvent user title startTime endTime status =>
    apply consistent_createEvent s h
    intro hs
    simp [Op.keepsLocks, hs] at hk
  | updateEvent user id title startTime endTime status =>
    exact consistent_updateEvent s h user id title startTime endTime status hk
  | deleteEvent user id => exact consistent_deleteEvent s h user id hk
  | createSwapRequest user my their message now =>
    exact consistent_createSwapRequest s h user my their message now
  | respondToSwapRequest user rid accept responseMessage now =>
    exact consistent_respond userName s h user rid accept responseMessage now
  | cancelSwapRequest user rid now =>
    have hstore : (cancelSwapRequest s user rid now).store = s := by
      cases hR : SwapRequest.findById s.swapRequests rid with
      | none => simp [cancelSwapRequest, hR]
      | some R =>
        simp only [Op.keepsLocks, hR, Bool.or_eq_true, bne_iff_ne, ne_eq] at hk
        by_cases hU : R.requesterUserId = user._id
        · have hP : ¬ R.status = SwapStatus.PENDING := by
            rcases hk with h | h
            · exact absurd hU h
            · exact h
          simp [cancelSwapRequest, hR, hU, hP]
        · simp [cancelSwapRequest, hR, hU]
    show (cancelSwapRequest s user rid now).store.Consistent
    rw [hstore]
    exact h

theorem consistent_runAll (userName : ObjectId → String) (ops : List Op) :
    ∀ s : Store, s.Consistent → allKeepLocks userName s ops = true →
      (runAll userName s ops).Consistent := by
  induction ops with
  | nil =>
    intro s h _
    exact h
  | cons op ops ih =>
    intro s h hk
    simp only [allKeepLocks, Bool.and_eq_true] at hk
    exact ih (op.run userName s) (consistent_run userName s h op hk.1) hk.2

/-- C3 (amended): in every state reached from the empty store by a sequence of
operations in which no Event is created with status SWAP_PENDING, no update
changes whether the Event it finds is SWAP_PENDING (it neither sets
SWAP_PENDING on an Event that is not, nor gives another status to one that
is), no Event that is SWAP_PENDING is deleted, and every `cancelSwapRequest`
is refused by one of its guards, while swap requests are created and responded
to (accepted or rejected) without restriction, every Event has status
SWAP_PENDING if and only if exactly one PENDING SwapRequest references it as
requester slot or as requested slot. -/
theorem statusInvariant_of_lock_keeping_run (userName : ObjectId → String)
    (ops : List Op) (hk : allKeepLocks userName Store.empty ops = true) :
    statusInvariant (runAll userName Store.empty ops) :=
  statusInvariant_of_consistent _
    (consistent_runAll userName ops Store.empty consistent_empty hk)

/-- C3 (amended) at the scenario: both Events are created SWAPPABLE and U1
requests the swap; U2 tries to cancel (403), U1 renames A while repeating its
status SWAP_PENDING, U1 updates an Event that does not exist (404), U2 accepts,
and U1 tries to cancel the ACCEPTED request (400). -/
theorem statusInvariant_of_lock_keeping_run_witness :
    allKeepLocks scenarioNames Store.empty
      [Op.createEvent scenarioU1 "A" 600 660 (some EventStatus.SWAPPABLE),
       Op.createEvent scenarioU2 "B" 840 900 (some EventStatus.SWAPPABLE),
       Op.createSwapRequest scenarioU1 0 1 (some "swap?") 5,
       Op.cancelSwapRequest scenarioU2 2 6,
       Op.updateEvent scenarioU1 0 (some "A2") none none (some EventStatus.SWAP_PENDING),
       Op.updateEvent scenarioU1 99 none none none (some EventStatus.SWAP_PENDING),
       Op.respondToSwapRequest scenarioU2 2 true (some "ok") 7,
       Op.cancelSwapRequest scenarioU1 2 8] = true ∧
    statusInvariant (runAll scenarioNames Store.empty
      [Op.createEvent scenarioU1 "A" 600 660 (some EventStatus.SWAPPABLE),
       Op.createEvent scenarioU2 "B" 840 900 (some EventStatus.SWAPPABLE),
       Op.createSwapRequest scenarioU1 0 1 (some "swap?") 5,
       Op.cancelSwapRequest scenarioU2 2 6,
       Op.updateEvent scenarioU1 0 (some "A2") none none (some EventStatus.SWAP_PENDING),
       Op.updateEvent scenarioU1 99 none none none (some EventStatus.SWAP_PENDING),
       Op.respondToSwapRequest scenarioU2 2 true (some "ok") 7,
       Op.cancelSwapRequest scenarioU1 2 8]) :=
  ⟨by decide, statusInvariant_of_lock_keeping_run scenarioNames _ (by decide)⟩

/-- The one kind of cancel that the lock-keeping runs leave out: the requester
cancels its PENDING request.  The route reverts both Events to SWAPPABLE and
then fails to store CANCELLED, so the request stays PENDING and the status
invariant is broken. -/
theorem statusInvariant_broken_by_cancel :
    Op.keepsLocks scenarioPending (Op.cancelSwapRequest scenarioU1 2 6) = false ∧
    ¬ statusInvariant (runAll scenarioNames Store.empty
      [Op.createEvent scenarioU1 "A" 600 660 (some EventStatus.SWAPPABLE),
       Op.createEvent scenarioU2 "B" 840 900 (some EventStatus.SWAPPABLE),
       Op.createSwapRequest scenarioU1 0 1 (some "swap?") 5,
       Op.cancelSwapRequest scenarioU1 2 6]) := by
  refine ⟨by decide, by decide⟩

/-! ## The history summary -/

/-- Overriding `status` in the filter object leaves the party scope and the
new status, whatever status the filter object carried. -/
theorem countDocuments_override_status (s : Store) (user : User) (status : Option StatusFilter)
    (st : SwapStatus) :
    countDocuments (HistoryQuery.matches { historyQuery user status with status := some st })
        s.swapRequests
      = partyCount s user._id st := by
  unfold countDocuments partyCount
  congr 1
  apply List.filter_congr
  intro r _
  have hb : ((r.requesterUserId == user._id || r.requestedUserId == user._id) && r.status == st)
      = decide ((r.requesterUserId = user._id ∨ r.requestedUserId = user._id) ∧ r.status = st) := by
    rw [Bool.eq_iff_iff]
    simp
  rw [← hb]
  cases status with
  | none => rfl
  | some f =>
    cases f with
    | all => rfl
    | status v => rfl

/-- C13: for every user, every `status` parameter (absent, `all`, or a status),
every `page` and every `limit`, the pending, accepted and rejected counts of
the summary of `listSwapHistory` are the numbers of SwapRequests with that
status in which the user is `requesterUserId` or `requestedUserId`: they are
counted without the status filter, and two calls by the same user return the
same summary whatever their `status`, `page` and `limit`.  The summary is
returned whenever the `skip` value `(page - 1) * limit` is not negative. -/
theorem history_summary_counts (s : Store) (user : User) (status : Option StatusFilter)
    (limit page : Option Int) :
    (0 ≤ (page.getD 1 - 1) * limit.getD 10 →
      ∃ resp, listSwapHistory s user status limit page = some resp) ∧
    (∀ resp, listSwapHistory s user status limit page = some resp →
      resp.summary.pending = partyCount s user._id SwapStatus.PENDING ∧
      resp.summary.accepted = partyCount s user._id SwapStatus.ACCEPTED ∧
      resp.summary.rejected = partyCount s user._id SwapStatus.REJECTED) ∧
    (∀ (status2 : Option StatusFilter) (limit2 page2 : Option Int) (resp resp2 : HistoryResponse),
      listSwapHistory s user status limit page = some resp →
      listSwapHistory s user status2 limit2 page2 = some resp2 →
      resp.summary = resp2.summary) := by
  have key : ∀ (st : Option StatusFilter) (l p : Option Int) (resp : HistoryResponse),
      listSwapHistory s user st l p = some resp →
      resp.summary =
        { pending := partyCount s user._id SwapStatus.PENDING
          accepted := partyCount s user._id SwapStatus.ACCEPTED
          rejected := partyCount s user._id SwapStatus.REJECTED } := by
    intro st l p resp h
    unfold listSwapHistory at h
    simp only at h
    split at h
    · cases h
    · rw [← Option.some.inj h]
      simp only [countDocuments_override_status]
  refine ⟨?_, ?_, ?_⟩
  · intro hskip
    unfold listSwapHistory
    simp only [not_lt.mpr hskip, if_false]
    exact ⟨_, rfl⟩
  · intro resp h
    rw [key status limit page resp h]
    exact ⟨rfl, rfl, rfl⟩
  · intro status2 limit2 page2 resp resp2 h h2
    rw [key status limit page resp h, key status2 limit2 page2 resp2 h2]

/-- C13 at the scenario: after the accept, U1 asks for page 2 of its REJECTED
requests, five per page; the summary still counts its one ACCEPTED request. -/
theorem history_summary_counts_witness :
    (listSwapHistory scenarioAccepted scenarioU1
        (some (StatusFilter.status SwapStatus.REJECTED)) (some 5) (some 2)).map
      (fun resp => (resp.swapRequests.length, resp.summary))
      = some (0, { pending := 0, accepted := 1, rejected := 0 }) ∧
    (∃ resp, listSwapHistory scenarioAccepted scenarioU1
        (some (StatusFilter.status SwapStatus.REJECTED)) (some 5) (some 2) = some resp) :=
  ⟨by decide,
    (history_summary_counts scenarioAccepted scenarioU1
      (some (StatusFilter.status SwapStatus.REJECTED)) (some 5) (some 2)).1 (by decide)⟩

/-! ## The life of a SwapRequest -/

/-- The cancel route never writes the ledger: `save()` rejects CANCELLED. -/
theorem cancel_swapRequests (s : Store) (user : User) (rid : ObjectId) (now : Date) :
    (cancelSwapRequest s user rid now).store.swapRequests = s.swapRequests := by
  cases hR : SwapRequest.findById s.swapRequests rid with
  | none => simp [cancelSwapRequest, hR]
  | some R =>
    by_cases hU : R.requesterUserId = user._id
    · by_cases hP : R.status = SwapStatus.PENDING
      · cases hA : Event.findById s.events R.requesterSlotId with
        | none => simp [cancelSwapRequest, hR, hU, hP, hA]
        | some a =>
          cases hB : Event.findById s.events R.requestedSlotId with
          | none => simp [cancelSwapRequest, hR, hU, hP, hA, hB]
          | some b =>
            simp [cancelSwapRequest, hR, hU, hP, hA, hB, SwapRequest.save,
              SwapRequest.validate, statusEnum]
      · simp [cancelSwapRequest, hR, hU, hP]
    · simp [cancelSwapRequest, hR, hU]

/-- A request creation that does not answer 201 writes nothing. -/
theorem createSwapRequest_failure_store (s : Store) (user : User) (my their : ObjectId)
    (message : Option String) (now : Date)
    (h : (createSwapRequest s user my their message now).response ≠ Response.created) :
    (createSwapRequest s user my their message now).store = s := by
  unfold createSwapRequest at h ⊢
  cases hA : findOne (fun e => e._id == my && e.userId == user._id) s.events with
  | none => simp
  | some a =>
    cases hB : findOne (fun e => e._id == their && e.status == EventStatus.SWAPPABLE)
        s.events with
    | none => simp
    | some b =>
      by_cases h3 : a.status = EventStatus.SWAPPABLE
      · by_cases h4 : b.userId = user._id
        · simp [h3, h4]
        · cases h5 : findOne (existingRequestFilter my their) s.swapRequests with
          | none =>
            exfalso
            apply h
            simp [hA, hB, h3, h4, h5, SwapRequest.insert, SwapRequest.validate, statusEnum]
          | some r => simp [h3, h4]
      · simp [h3]

/-- What a response does to the ledger. -/
theorem respond_ledgerStep (userName : ObjectId → String) (s : Store) (user : User)
    (rid : ObjectId) (accept : Bool) (responseMessage : Option String) (now : Date) :
    LedgerStep s (respondToSwapRequest userName s user rid accept responseMessage now).store := by
  cases hR : SwapRequest.findById s.swapRequests rid with
  | none =>
    apply LedgerStep.same
    simp [respondToSwapRequest, hR]
  | some R =>
    by_cases hU : R.requestedUserId = user._id
    · by_cases hP : R.status = SwapStatus.PENDING
      · cases hA : Event.findById s.events R.requesterSlotId with
        | none =>
          apply LedgerStep.same
          cases accept <;> simp [respondToSwapRequest, hR, hU, hP, hA]
        | some a =>
          cases hB : Event.findById s.events R.requestedSlotId with
          | none =>
            apply LedgerStep.same
            cases accept <;> simp [respondToSwapRequest, hR, hU, hP, hA, hB]
          | some b =>
            cases accept with
            | true =>
              exact LedgerStep.resolved rid now R _ hR hP
                (respond_accept_store userName s user rid responseMessage now R a b
                  hR hU hP hA hB).2.2
            | false =>
              exact LedgerStep.resolved rid now R _ hR hP
                (respond_reject_store userName s user rid responseMessage now R a b
                  hR hU hP hA hB).2.2
      · apply LedgerStep.same
        simp [respondToSwapRequest, hR, hU, hP]
    · apply LedgerStep.same
      simp [respondToSwapRequest, hR, hU]

/-- What any operation does to the ledger. -/
theorem run_ledgerStep (userName : ObjectId → String) (s : Store) (op : Op) :
    LedgerStep s (op.run userName s) := by
  cases op with
  | createEvent user title startTime endTime status => exact LedgerStep.same rfl
  | updateEvent user id title startTime endTime status =>
    apply LedgerStep.same
    cases hE : ownedEvent s user id with
    | none =>
      show (updateEvent s user id title startTime endTime status).store.swapRequests = _
      rw [updateEvent_store_none s user id title startTime endTime status hE]
    | some e =>
      obtain ⟨t, st, en, hstore⟩ :=
        updateEvent_store s user id title startTime endTime status e hE
      show (updateEvent s user id title startTime endTime status).store.swapRequests = _
      rw [hstore]
  | deleteEvent user id =>
    apply LedgerStep.same
    show (deleteEvent s user id).store.swapRequests = _
    unfold deleteEvent
    cases findOne (fun e => e._id == id && e.userId == user._id) s.events <;> rfl
  | createSwapRequest user my their message now =>
    by_cases hc : (createSwapRequest s user my their message now).response = Response.created
    · obtain ⟨a, b, hA, hB, hAs, hBo, hNo⟩ :=
        createSwapRequest_created_inv s user my their message now hc
      exact LedgerStep.inserted _
        (createSwapRequest_store s user my their message now a b hA hB hAs hBo hNo).2.2
    · apply LedgerStep.same
      show (createSwapRequest s user my their message now).store.swapRequests = _
      rw [createSwapRequest_failure_store s user my their message now hc]
  | respondToSwapRequest user rid accept responseMessage now =>
    exact respond_ledgerStep userName s user rid accept responseMessage now
  | cancelSwapRequest user rid now =>
    exact LedgerStep.same (cancel_swapRequests s user rid now)

/-- One ledger step keeps every request under its id, and keeps a request
that is no longer PENDING as it is. -/
theorem ledgerStep_findById (s t : Store) (h : LedgerStep s t) (rid : ObjectId)
    (r : SwapRequest) (hr : SwapRequest.findById s.swapRequests rid = some r) :
    ∃ r2, SwapRequest.findById t.swapRequests rid = some r2 ∧
      (r.status ≠ SwapStatus.PENDING → r2 = r) := by
  cases h with
  | same h =>
    rw [h]
    exact ⟨r, hr, fun _ => rfl⟩
  | inserted R h =>
    rw [h]
    refine ⟨r, ?_, fun _ => rfl⟩
    unfold SwapRequest.findById findOne at hr ⊢
    rw [List.find?_append, hr]
    rfl
  | resolved rid2 now R doc hR hP h =>
    rw [h]
    by_cases hid : rid2 = rid
    · subst hid
      have hRr : R = r := Option.some.inj (hR.symm.trans hr)
      subst hRr
      refine ⟨_, SwapRequest.findById_persist _ _ _ _ R hR, ?_⟩
      intro hne
      exact absurd hP hne
    · refine ⟨r, ?_, fun _ => rfl⟩
      unfold SwapRequest.findById at hr ⊢
      rw [findOne_updateOne_other (fun r : SwapRequest => r._id == rid2)
        (fun r : SwapRequest => r._id == rid) (SwapRequest.persist now doc) ?_, hr]
      intro d hd
      have hd2 : d._id = rid2 := by simpa using hd
      simp [SwapRequest.persist, hd2, hid]

/-- One ledger step keeps the ids of the ledger in place and may add ids at
the end. -/
theorem ledgerStep_ids (s t : Store) (h : LedgerStep s t) :
    ∃ added, t.swapRequests.map (fun r => r._id)
      = s.swapRequests.map (fun r => r._id) ++ added := by
  cases h with
  | same h =>
    rw [h]
    exact ⟨[], (List.append_nil _).symm⟩
  | inserted R h =>
    rw [h]
    exact ⟨[R._id], by simp⟩
  | resolved rid2 now R doc hR hP h =>
    rw [h, map_updateOne _ (SwapRequest.persist now doc) (fun r : SwapRequest => r._id)
      (fun _ => rfl)]
    exact ⟨[], (List.append_nil _).symm⟩

theorem runAll_findById (userName : ObjectId → String) (ops : List Op) :
    ∀ (s : Store) (rid : ObjectId) (r : SwapRequest),
      SwapRequest.findById s.swapRequests rid = some r →
      ∃ r2, SwapRequest.findById (runAll userName s ops).swapRequests rid = some r2 ∧
        (r.status ≠ SwapStatus.PENDING → r2 = r) := by
  induction ops with
  | nil =>
    intro s rid r hr
    exact ⟨r, hr, fun _ => rfl⟩
  | cons op ops ih =>
    intro s rid r hr
    obtain ⟨r1, h1, k1⟩ :=
      ledgerStep_findById s (op.run userName s) (run_ledgerStep userName s op) rid r hr
    obtain ⟨r2, h2, k2⟩ := ih (op.run userName s) rid r1 h1
    refine ⟨r2, h2, ?_⟩
    intro hne
    have e1 := k1 hne
    subst e1
    exact k2 hne

theorem runAll_ids (userName : ObjectId → String) (ops : List Op) :
    ∀ s : Store, ∃ added, (runAll userName s ops).swapRequests.map (fun r => r._id)
      = s.swapRequests.map (fun r => r._id) ++ added := by
  induction ops with
  | nil =>
    intro s
    exact ⟨[], (List.append_nil _).symm⟩
  | cons op ops ih =>
    intro s
    obtain ⟨a1, h1⟩ := ledgerStep_ids s (op.run userName s) (run_ledgerStep userName s op)
    obtain ⟨a2, h2⟩ := ih (op.run userName s)
    refine ⟨a1 ++ a2, ?_⟩
    show (runAll userName (op.run userName s) ops).swapRequests.map (fun r => r._id) = _
    rw [h2, h1, List.append_assoc]

/-- C12: for every store, every SwapRequest R in it (found under `rid`) and
every sequence of operations `ops1` followed by `ops2`: no operation removes a
request from the ledger (the ids of the ledger stay in place, new ids are
added at the end, and R is still found under `rid`); once the status of R is
ACCEPTED, REJECTED or CANCELLED, it is the same after `ops1`; and if the status
of R has changed during `ops1`, it was PENDING before, is not PENDING after,
and is still the same after `ops2`: the status changes at most once, from
PENDING to a terminal state. -/
theorem swapRequest_status_changes_once (userName : ObjectId → String) (s : Store)
    (ops1 ops2 : List Op) (rid : ObjectId) (R : SwapRequest)
    (hR : SwapRequest.findById s.swapRequests rid = some R) :
    (∃ added, (runAll userName s ops1).swapRequests.map (fun r => r._id)
      = s.swapRequests.map (fun r => r._id) ++ added) ∧
    (∃ R1 R2, SwapRequest.findById (runAll userName s ops1).swapRequests rid = some R1 ∧
      SwapRequest.findById (runAll userName (runAll userName s ops1) ops2).swapRequests rid
        = some R2 ∧
      (R.status ≠ SwapStatus.PENDING → R1.status = R.status) ∧
      (R1.status ≠ R.status →
        R.status = SwapStatus.PENDING ∧ R1.status ≠ SwapStatus.PENDING ∧
        R2.status = R1.status)) := by
  refine ⟨runAll_ids userName ops1 s, ?_⟩
  obtain ⟨R1, h1, k1⟩ := runAll_findById userName ops1 s rid R hR
  obtain ⟨R2, h2, k2⟩ := runAll_findById userName ops2 (runAll userName s ops1) rid R1 h1
  refine ⟨R1, R2, h1, h2, ?_, ?_⟩
  · intro hne
    rw [k1 hne]
  · intro hch
    have hp : R.status = SwapStatus.PENDING := by
      by_contra hne
      exact hch (by rw [k1 hne])
    have hn1 : R1.status ≠ SwapStatus.PENDING := by
      intro h
      exact hch (h.trans hp.symm)
    exact ⟨hp, hn1, by rw [k2 hn1]⟩

/-- C12 at the scenario: the request is PENDING, U2 accepts it, and then U1
tries to cancel it, U2 tries to reject it and U2 deletes its Event. -/
theorem swapRequest_status_changes_once_witness :
    SwapRequest.findById scenarioPending.swapRequests 2 = some scenarioRequest ∧
    (SwapRequest.findById (runAll scenarioNames scenarioPending
        [Op.respondToSwapRequest scenarioU2 2 true (some "ok") 6]).swapRequests 2).map
      (fun r => r.status) = some SwapStatus.ACCEPTED ∧
    (SwapRequest.findById (runAll scenarioNames
        (runAll scenarioNames scenarioPending
          [Op.respondToSwapRequest scenarioU2 2 true (some "ok") 6])
        [Op.cancelSwapRequest scenarioU1 2 7,
         Op.respondToSwapRequest scenarioU2 2 false none 8,
         Op.deleteEvent scenarioU2 1]).swapRequests 2).map
      (fun r => r.status) = some SwapStatus.ACCEPTED ∧
    (∃ R1 R2, SwapRequest.findById (runAll scenarioNames scenarioPending
        [Op.respondToSwapRequest scenarioU2 2 true (some "ok") 6]).swapRequests 2 = some R1 ∧
      SwapRequest.findById (runAll scenarioNames
        (runAll scenarioNames scenarioPending
          [Op.respondToSwapRequest scenarioU2 2 true (some "ok") 6])
        [Op.cancelSwapRequest scenarioU1 2 7,
         Op.respondToSwapRequest scenarioU2 2 false none 8,
         Op.deleteEvent scenarioU2 1]).swapRequests 2 = some R2 ∧
      (scenarioRequest.status ≠ SwapStatus.PENDING → R1.status = scenarioRequest.status) ∧
      (R1.status ≠ scenarioRequest.status →
        scenarioRequest.status = SwapStatus.PENDING ∧ R1.status ≠ SwapStatus.PENDING ∧
        R2.status = R1.status)) :=
  ⟨rfl, rfl, rfl,
    (swapRequest_status_changes_once scenarioNames scenarioPending
      [Op.respondToSwapRequest scenarioU2 2 true (some "ok") 6]
      [Op.cancelSwapRequest scenarioU1 2 7,
       Op.respondToSwapRequest scenarioU2 2 false none 8,
       Op.deleteEvent scenarioU2 1] 2 scenarioRequest rfl).2⟩

/-! ## The end-to-end scenario -/

/-- A text with a non-empty ending is not empty. -/
theorem append_ne_empty (a b : String) (hb : b ≠ "") : a ++ b ≠ "" := by
  intro h
  apply hb
  have h2 : (a ++ b).data = [] := by rw [h]
  rw [String.data_append] at h2
  have h3 : b.data = [] := (List.append_eq_nil.mp h2).2
  exact String.ext h3

/-- The notifications of an accepted response: SWAP_ACCEPTED to the requester,
then SWAP_COMPLETED to the responder, appended to the collection. -/
theorem respond_accept_notifications (userName : ObjectId → String) (s : Store) (user : User)
    (rid : ObjectId) (responseMessage : Option String) (now : Date)
    (R : SwapRequest) (a b : Event)
    (hR : SwapRequest.findById s.swapRequests rid = some R)
    (hU : R.requestedUserId = user._id)
    (hP : R.status = SwapStatus.PENDING)
    (hA : Event.findById s.events R.requesterSlotId = some a)
    (hB : Event.findById s.events R.requestedSlotId = some b) :
    ∃ n1 n2,
      (respondToSwapRequest userName s user rid true responseMessage now).store.notifications
        = s.notifications ++ [n1, n2] ∧
      n1.userId = R.requesterUserId ∧ n1.type = NotificationType.SWAP_ACCEPTED ∧
      n1.actionRequired = false ∧ n1.relatedId = rid ∧
      n2.userId = user._id ∧ n2.type = NotificationType.SWAP_COMPLETED ∧
      n2.relatedId = rid := by
  have hr := requestFindById_id _ _ _ hR
  have m1 : user.name ++ " accepted your swap request. Your events have been rescheduled."
      ≠ "" := append_ne_empty _ _ (by decide)
  have m2 : "You accepted " ++ userName R.requesterUserId ++ "'s swap request." ≠ "" :=
    append_ne_empty _ _ (by decide)
  have t1 : ¬ ("Swap Request Accepted! " = "") := by decide
  have t2 : ¬ ("Swap Completed! " = "") := by decide
  simp only [respondToSwapRequest, hR, hU, hP, hA, hB, SwapRequest.save,
    SwapRequest.validate, statusEnum, ne_eq, not_true_eq_false, if_false, if_true,
    List.contains_cons, beq_self_eq_true, Bool.true_or, Bool.or_true, createNotification,
    m1, m2, t1, t2, or_self, hr]
  refine ⟨
    { _id := s.nextId
      userId := R.requesterUserId
      type := NotificationType.SWAP_ACCEPTED
      title := "Swap Request Accepted! "
      message := user.name ++ " accepted your swap request. Your events have been rescheduled."
      relatedId := rid
      actionRequired := false
      read := false
      createdAt := now },
    { _id := s.nextId + 1
      userId := user._id
      type := NotificationType.SWAP_COMPLETED
      title := "Swap Completed! "
      message := "You accepted " ++ userName R.requesterUserId ++ "'s swap request."
      relatedId := rid
      actionRequired := false
      read := false
      createdAt := now }, ?_, rfl, rfl, rfl, rfl, rfl, rfl, rfl⟩
  simp

/-- C11 (counterexample): U1 has requested the swap of A with B, and both
owners have then set their slot back to SWAPPABLE with the update route.  U1
owns A (SWAPPABLE, 10:00 to 11:00) and U2 owns B (SWAPPABLE, 14:00 to 15:00),
yet `createSwapRequest(U1, A, B)` is answered DuplicateRequest, the response
to the request that was not created is answered 404, and nothing is written:
A keeps its times and no notification is added. -/
theorem requestThenAccept_on_reopened_pair :
    (Event.findById scenarioReopened.events 0).map Event.view
      = some (0, 10, 600, 660, EventStatus.SWAPPABLE, none) ∧
    (Event.findById scenarioReopened.events 1).map Event.view
      = some (1, 20, 840, 900, EventStatus.SWAPPABLE, none) ∧
    (createSwapRequest scenarioReopened scenarioU1 0 1 none 7).response
      = Response.duplicateRequest ∧
    (requestThenAccept scenarioNames scenarioReopened scenarioU1 scenarioU2 0 1 none none
        7 8).response = Response.notFound ∧
    (requestThenAccept scenarioNames scenarioReopened scenarioU1 scenarioU2 0 1 none none
        7 8).store = scenarioReopened := by
  refine ⟨rfl, rfl, by decide, by decide, rfl⟩

/-- C11 (amended): starting from a store where U1 owns Event A (SWAPPABLE,
times T1) and another user U2 owns Event B (SWAPPABLE, times T2), where no
PENDING request is on the pair and the id drawn for the new request is not yet
in the ledger, `createSwapRequest(U1, A, B)` followed by
`respondToSwapRequest(U2, that request, accept = true)` both succeed; at the
end A has the times T2, status BUSY and owner U1, B has the times T1, status
BUSY and owner U2, and the accept has added two notifications: SWAP_ACCEPTED
to U1, then SWAP_COMPLETED to U2. -/
theorem requestThenAccept_effect (userName : ObjectId → String) (s : Store)
    (u1 u2 : User) (A B : ObjectId) (a b : Event) (message responseMessage : Option String)
    (now1 now2 : Date)
    (hA : Event.findById s.events A = some a)
    (hAo : a.userId = u1._id)
    (hAs : a.status = EventStatus.SWAPPABLE)
    (hB : Event.findById s.events B = some b)
    (hBo : b.userId = u2._id)
    (hBs : b.status = EventStatus.SWAPPABLE)
    (hne : u2._id ≠ u1._id)
    (hNo : ∀ r ∈ s.swapRequests, r.status = SwapStatus.PENDING →
      ¬ ((r.requesterSlotId = A ∧ r.requestedSlotId = B) ∨
         (r.requesterSlotId = B ∧ r.requestedSlotId = A)))
    (hFresh : SwapRequest.findById s.swapRequests s.nextId = none) :
    (createSwapRequest s u1 A B message now1).response = Response.created ∧
    (requestThenAccept userName s u1 u2 A B message responseMessage now1 now2).response
      = Response.ok ∧
    (∃ a2, Event.findById
        (requestThenAccept userName s u1 u2 A B message responseMessage now1 now2).store.events
        A = some a2 ∧
      a2.startTime = b.startTime ∧ a2.endTime = b.endTime ∧
      a2.status = EventStatus.BUSY ∧ a2.userId = u1._id) ∧
    (∃ b2, Event.findById
        (requestThenAccept userName s u1 u2 A B message responseMessage now1 now2).store.events
        B = some b2 ∧
      b2.startTime = a.startTime ∧ b2.endTime = a.endTime ∧
      b2.status = EventStatus.BUSY ∧ b2.userId = u2._id) ∧
    (∃ n1 n2,
      (requestThenAccept userName s u1 u2 A B message responseMessage now1
          now2).store.notifications
        = (createSwapRequest s u1 A B message now1).store.notifications ++ [n1, n2] ∧
      n1.type = NotificationType.SWAP_ACCEPTED ∧ n1.userId = u1._id ∧
      n2.type = NotificationType.SWAP_COMPLETED ∧ n2.userId = u2._id) := by
  have hBo2 : b.userId ≠ u1._id := by
    rw [hBo]
    exact hne
  have hAB : A ≠ B := by
    intro h
    rw [h, hB] at hA
    have hab : b = a := Option.some.inj hA
    rw [hab, hAo] at hBo
    exact hne hBo.symm
  have hA2 : findOne (fun e => e._id == A && e.userId == u1._id) s.events = some a :=
    findOne_and_of_findOne (fun e : Event => e._id == A)
      (fun e : Event => e.userId == u1._id) _ _ hA (by simp [hAo])
  have hB2 : findOne (fun e => e._id == B && e.status == EventStatus.SWAPPABLE) s.events
      = some b :=
    findOne_and_of_findOne (fun e : Event => e._id == B)
      (fun e : Event => e.status == EventStatus.SWAPPABLE) _ _ hB (by simp [hBs])
  obtain ⟨h1, h2, h3⟩ := createSwapRequest_store s u1 A B message now1 a b hA2 hB2 hAs hBo2
    (findOne_existingRequest_none _ A B hNo)
  have hR1 : SwapRequest.findById (createSwapRequest s u1 A B message now1).store.swapRequests
      s.nextId = some (newSwapRequest s.nextId A B u1._id b.userId now1) := by
    rw [h3]
    unfold SwapRequest.findById findOne at hFresh ⊢
    rw [List.find?_append, hFresh]
    simp [newSwapRequest]
  have hA1 : Event.findById (createSwapRequest s u1 A B message now1).store.events A
      = some (pendingUpdate now1 a) := by
    rw [h2, Event.findById_update_update_fst _ _ _ (pendingUpdate now1) (pendingUpdate now1)
      (fun _ => rfl) (fun _ => rfl) a hA]
    simp [hAB]
  have hB1 : Event.findById (createSwapRequest s u1 A B message now1).store.events B
      = some (pendingUpdate now1 b) := by
    rw [h2, Event.findById_update_update_snd _ _ _ (pendingUpdate now1) (pendingUpdate now1)
      (fun _ => rfl) (fun _ => rfl) b hB]
    simp [hAB]
  obtain ⟨k1, ⟨a2, ka, ka1, ka2, ka3, ka4⟩, ⟨b2, kb, kb1, kb2, kb3, kb4⟩, _⟩ :=
    respond_accept_effect userName (createSwapRequest s u1 A B message now1).store u2
      s.nextId responseMessage now2 (newSwapRequest s.nextId A B u1._id b.userId now1)
      (pendingUpdate now1 a) (pendingUpdate now1 b) hR1 hBo rfl hA1 hB1
  obtain ⟨n1, n2, kn, kn1, kn2, _, _, kn3, kn4, _⟩ :=
    respond_accept_notifications userName (createSwapRequest s u1 A B message now1).store u2
      s.nextId responseMessage now2 (newSwapRequest s.nextId A B u1._id b.userId now1)
      (pendingUpdate now1 a) (pendingUpdate now1 b) hR1 hBo rfl hA1 hB1
  refine ⟨h1, k1, ⟨a2, ka, ka1, ka2, ka3, ?_⟩, ⟨b2, kb, kb1, kb2, kb3, ?_⟩,
    ⟨n1, n2, kn, kn2, kn1, kn4, kn3⟩⟩
  · rw [ka4]
    exact hAo
  · rw [kb4]
    exact hBo

/-- C11 (amended) at the scenario of the specification: from the empty store
U1 creates Event A (SWAPPABLE, 10:00 to 11:00) and U2 creates Event B
(SWAPPABLE, 14:00 to 15:00); U1 requests the swap and U2 accepts.  A is then
14:00 to 15:00, BUSY, owned by U1; B is 10:00 to 11:00, BUSY, owned by U2; the
accept has added SWAP_ACCEPTED to U1 and SWAP_COMPLETED to U2. -/
theorem requestThenAccept_effect_witness :
    (requestThenAccept scenarioNames scenarioStore scenarioU1 scenarioU2 0 1 (some "swap?")
        (some "ok") 5 6).store.events.map Event.view
      = [(0, 10, 840, 900, EventStatus.BUSY, some LastAction.SWAP_ACCEPTED),
         (1, 20, 600, 660, EventStatus.BUSY, some LastAction.SWAP_ACCEPTED)] ∧
    (requestThenAccept scenarioNames scenarioStore scenarioU1 scenarioU2 0 1 (some "swap?")
        (some "ok") 5 6).store.notifications.map Notification.view
      = [(20, NotificationType.SWAP_REQUEST), (10, NotificationType.SWAP_ACCEPTED),
         (20, NotificationType.SWAP_COMPLETED)] ∧
    (createSwapRequest scenarioStore scenarioU1 0 1 (some "swap?") 5).response
      = Response.created ∧
    (requestThenAccept scenarioNames scenarioStore scenarioU1 scenarioU2 0 1 (some "swap?")
        (some "ok") 5 6).response = Response.ok :=
  ⟨rfl, rfl,
    (requestThenAccept_effect scenarioNames scenarioStore scenarioU1 scenarioU2 0 1
      { scenarioA with status := EventStatus.SWAPPABLE, lastUpdated := none }
      { scenarioB with status := EventStatus.SWAPPABLE, lastUpdated := none }
      (some "swap?") (some "ok") 5 6 rfl rfl rfl rfl rfl rfl (by decide)
      (fun r hr => nomatch hr) rfl).1,
    (requestThenAccept_effect scenarioNames scenarioStore scenarioU1 scenarioU2 0 1
      { scenarioA with status := EventStatus.SWAPPABLE, lastUpdated := none }
      { scenarioB with status := EventStatus.SWAPPABLE, lastUpdated := none }
      (some "swap?") (some "ok") 5 6 rfl rfl rfl rfl rfl rfl (by decide)
      (fun r hr => nomatch hr) rfl).2.1⟩

end SlotSwapper
